import Mathlib

/-!
Verification development for the ai-media-organizer repository.

The Python sources (src/scanner.py, src/matcher.py, src/organizer.py,
src/models.py) are shallowly embedded below: pure computations become Lean
functions, HTTP calls become oracle parameters, the filesystem becomes an
explicit list of existing paths, and Python truthiness / `None` become
`Option` values with explicit truthiness helpers.  All definitions are
executable so that concrete inputs can be evaluated with `decide` / `rfl`.
-/

namespace MediaOrganizer

/-! ## Python-value helpers

Python optional strings are `Option String`; `none` is Python `None`.
Truthiness of a string is non-emptiness, of an int it is non-zeroness.
-/

/-- Truthiness of a Python `str | None` value: `None` and `""` are falsy. -/
def optStrTruthy : Option String → Bool
  | none => false
  | some s => s ≠ ""

/-- Truthiness of a Python `int | None` value: `None` and `0` are falsy. -/
def optNatTruthy : Option Nat → Bool
  | none => false
  | some n => n ≠ 0

/-- Python `!=` on two `str | None` values (`None != "x"` is `True`). -/
def pyNe (a b : Option String) : Bool := a ≠ b

/-- Python `f"{x}"` of a `str | None` value: `None` renders as `"None"`. -/
def pyStr : Option String → String
  | none => "None"
  | some s => s

/-- Python `x or ""` for a `str | None` value. -/
def pyOrEmpty : Option String → String
  | none => ""
  | some s => s

/-- `\\s` characters recognized by Python's `re` and `str.strip()`
(ASCII whitespace; enough for every string these claims touch). -/
def isPySpace (c : Char) : Bool :=
  c == ' ' || c == '\t' || c == '\n' || c == '\r' || c == '\x0b' || c == '\x0c'

/-- Python `str.strip()` over the character list (`String.trim` is not
kernel-reducible, so the strip is spelled out). -/
def pyStrip (s : String) : String :=
  (((s.data.dropWhile isPySpace).reverse.dropWhile isPySpace).reverse).asString

/-! ## Text classifier (`_is_chinese_text`, matcher.py lines 304-312 and
organizer.py lines 588-596: identical code) -/

/-- True iff some character lies in U+4E00-U+9FFF or U+3400-U+4DBF.
Empty input gives `false` (the `if not text` guard is subsumed by `any`). -/
def _is_chinese_text (text : String) : Bool :=
  text.data.any fun c =>
    ('一' ≤ c && c ≤ '鿿') || ('㐀' ≤ c && c ≤ '䶿')

/-! ## Candidate matcher: movie search strategy list
(`TMDBMatcher.search_movie`, matcher.py lines 27-79).

`title` is the parsed localized title, `original_title` the parsed original
title; both reach `search_movie` as possibly-`None` fields of `ParsedInfo`
(main.py lines 80-84). -/

/-- One `(query, year, strategy-label)` entry of `search_attempts`. -/
structure SearchAttempt where
  query : String
  year : Option Nat
  strategy : String
deriving DecidableEq, Repr

/-- The ordered strategy list built by `search_movie` (lines 34-52), with the
exact Python conditions: strategy 1 tests `original_title and title !=
original_title and year`, it does not test that `title` itself is truthy. -/
def search_attempts (title : Option String) (year : Option Nat)
    (original_title : Option String) : List SearchAttempt :=
  (if optStrTruthy original_title && pyNe title original_title && optNatTruthy year then
    [⟨pyStr original_title ++ " " ++ pyStr title, year, "combined titles + year"⟩] else []) ++
  (if optStrTruthy original_title && optNatTruthy year then
    [⟨pyStr original_title, year, "original title + year"⟩] else []) ++
  (if optStrTruthy title && optNatTruthy year then
    [⟨pyStr title, year, "title + year"⟩] else []) ++
  (if optStrTruthy original_title then
    [⟨pyStr original_title, none, "original title only"⟩] else []) ++
  (if optStrTruthy title && pyNe title original_title then
    [⟨pyStr title, none, "title only"⟩] else [])

/-- The strategy list gated exactly as claim C1 words it: the combined
attempt additionally requires the localized title itself to be present. -/
def claimed_search_attempts (title : Option String) (year : Option Nat)
    (original_title : Option String) : List SearchAttempt :=
  (if optStrTruthy title && optStrTruthy original_title && pyNe title original_title
      && optNatTruthy year then
    [⟨pyStr original_title ++ " " ++ pyStr title, year, "combined titles + year"⟩] else []) ++
  (if optStrTruthy original_title && optNatTruthy year then
    [⟨pyStr original_title, year, "original title + year"⟩] else []) ++
  (if optStrTruthy title && optNatTruthy year then
    [⟨pyStr title, year, "title + year"⟩] else []) ++
  (if optStrTruthy original_title then
    [⟨pyStr original_title, none, "original title only"⟩] else []) ++
  (if optStrTruthy title && pyNe title original_title then
    [⟨pyStr title, none, "title only"⟩] else [])

/-- The strategy list as the amended claim words it: identical to the
documented gates except that the combined attempt requires only
`originalTitle` present, titles distinct, and year known — the localized
title's own presence is not tested.  Spelled as a filter over gated
candidates (the amended spec's phrasing), to be compared with the
loop-built `search_attempts`. -/
def amended_search_attempts (title : Option String) (year : Option Nat)
    (original_title : Option String) : List SearchAttempt :=
  ([(optStrTruthy original_title && pyNe title original_title && optNatTruthy year,
     (⟨pyStr original_title ++ " " ++ pyStr title, year, "combined titles + year"⟩ :
       SearchAttempt)),
    (optStrTruthy original_title && optNatTruthy year,
     ⟨pyStr original_title, year, "original title + year"⟩),
    (optStrTruthy title && optNatTruthy year,
     ⟨pyStr title, year, "title + year"⟩),
    (optStrTruthy original_title,
     ⟨pyStr original_title, none, "original title only"⟩),
    (optStrTruthy title && pyNe title original_title,
     ⟨pyStr title, none, "title only"⟩)]).filterMap
    fun ca => if ca.1 then some ca.2 else none

/-- `_search_movie_api` returns `results[0] if results else None` for the
provider's result list (lines 152-173); the provider is the oracle `api`. -/
def _search_movie_api {α : Type} (api : String → Option Nat → List α)
    (query : String) (year : Option Nat) : Option α :=
  (api query year).head?

/-- The `for search_term, search_year, strategy in search_attempts` loop of
lines 55-60: stop at the first attempt whose API result is non-empty. -/
def try_search_attempts {α : Type} (api : String → Option Nat → List α) :
    List SearchAttempt → Option α
  | [] => none
  | a :: rest =>
    match _search_movie_api api a.query a.year with
    | some d => some d
    | none => try_search_attempts api rest

/-- `search_movie` restricted to its match-selection outcome: the raw result
record the strategy loop settles on (`movie_data` of line 62), `none` when
every attempt came back empty (line 79). -/
def search_movie_data {α : Type} (api : String → Option Nat → List α)
    (title : Option String) (year : Option Nat) (original_title : Option String) :
    Option α :=
  try_search_attempts api (search_attempts title year original_title)

/-! ## Candidate matcher: alternative-title enrichment
(`TMDBMatcher._enhance_movie_with_alternative_titles`, matcher.py 264-302). -/

/-- One entry of `detailed_info['alternative_titles']['titles']`.
`title` is read with `alt.get('title', '')`, so a missing title is `""`. -/
structure AltTitle where
  iso_3166_1 : String
  title : String
deriving DecidableEq, Repr

/-- One entry of `detailed_info['translations']['translations']`;
`title` is `trans.get('data', {}).get('title')`, which may be `None`. -/
structure MovieTranslation where
  iso_3166_1 : String
  title : Option String
deriving DecidableEq, Repr

/-- Loop of lines 277-281: first US/GB alternative whose title is not CJK. -/
def alt_loop_english : List AltTitle → Option String
  | [] => none
  | a :: rest =>
    if (a.iso_3166_1 == "US" || a.iso_3166_1 == "GB") && !_is_chinese_text a.title then
      some a.title
    else alt_loop_english rest

/-- Loop of lines 284-288: first CN/TW/HK alternative whose title is CJK. -/
def alt_loop_chinese : List AltTitle → Option String
  | [] => none
  | a :: rest =>
    if (a.iso_3166_1 == "CN" || a.iso_3166_1 == "TW" || a.iso_3166_1 == "HK")
        && _is_chinese_text a.title then
      some a.title
    else alt_loop_chinese rest

/-- Loop of lines 291-299: first CN/TW/HK translation whose `data.title` is
truthy and CJK.  The `break` sits inside the inner `if`, so a region entry
with a non-qualifying title does not stop the loop. -/
def trans_loop_chinese : List MovieTranslation → Option String
  | [] => none
  | t :: rest =>
    if t.iso_3166_1 == "CN" || t.iso_3166_1 == "TW" || t.iso_3166_1 == "HK" then
      match t.title with
      | some tt => if !(tt == "") && _is_chinese_text tt then some tt else trans_loop_chinese rest
      | none => trans_loop_chinese rest
    else trans_loop_chinese rest

/-- Final value of `movie_info.title` after
`_enhance_movie_with_alternative_titles`.  In the non-CJK branch the
translations loop (lines 291-299) runs unconditionally after the
alternative-titles loop, overwriting whatever that loop chose. -/
def _enhance_movie_with_alternative_titles (original_title current_title : String)
    (alt_titles : List AltTitle) (translations : List MovieTranslation) : String :=
  if _is_chinese_text original_title then
    (alt_loop_english alt_titles).getD current_title
  else
    let title1 := (alt_loop_chinese alt_titles).getD current_title
    (trans_loop_chinese translations).getD title1

/-! ## Data model (models.py).  The float `confidence` field and the
overview/poster/credits fields play no part in any claim's code path and are
omitted from the embedding. -/

inductive MediaType where
  | movie
  | tv_show
deriving DecidableEq, Repr

/-- `ParsedInfo` (models.py 13-22): all fields can be `None` since they come
from `data.get(...)` on the AI's JSON (scanner.py 249-257). -/
structure ParsedInfo where
  title : Option String
  original_title : Option String
  year : Option Nat
  media_type : MediaType
  season : Option Nat := none
  episode : Option Nat := none
deriving DecidableEq, Repr

/-- One entry of `MovieInfo.production_countries`; both keys are read with
`.get(..., 'Unknown')` (organizer.py 604-606). -/
structure ProductionCountry where
  iso_3166_1 : Option String
  name : Option String
deriving DecidableEq, Repr

/-- `MovieInfo` (models.py 32-45), fields used by the organizer/matcher. -/
structure MovieInfo where
  id : Nat
  title : Option String
  original_title : Option String
  year : Nat
  poster_path : Option String := none
  imdb_id : Option String
  tmdb_id : String
  production_countries : Option (List ProductionCountry) := none
deriving DecidableEq, Repr

/-- `TVShowInfo` (models.py 47-58), fields used by the organizer/matcher. -/
structure TVShowInfo where
  id : Nat
  name : Option String
  original_name : Option String
  first_air_date : String
  imdb_id : Option String
  tmdb_id : String
deriving DecidableEq, Repr

/-- `SeasonInfo` (models.py 60-69).  All seven fields are required by the
dataclass constructor: none of them carries a default. -/
structure SeasonInfo where
  id : Nat
  name : String
  season_number : Option Nat
  air_date : String
  overview : String
  poster_path : Option String
  episode_count : Nat
deriving DecidableEq, Repr

/-- `FileOperation` (models.py 71-77). -/
structure FileOperation where
  operation_type : String
  source : String
  destination : String
  description : String
deriving DecidableEq, Repr

/-! ## Naming engine: movie and TV folder names
(organizer.py 548-586 and 763-806). -/

/-- The `second_title` computed in `_generate_movie_folder_name`
(organizer.py 555-573).  In the non-CJK branch the AI-parsed localized title
is tried before the provider's title (lines 569-573). -/
def movie_second_title (mi : MovieInfo) (ai : Option ParsedInfo) : String :=
  let original_title := pyOrEmpty mi.original_title
  let tmdb_title := pyOrEmpty mi.title
  if _is_chinese_text original_title then
    if tmdb_title ≠ "" && !_is_chinese_text tmdb_title then tmdb_title
    else
      match ai with
      | some p =>
        if optStrTruthy p.original_title && !_is_chinese_text (pyOrEmpty p.original_title) then
          pyOrEmpty p.original_title
        else ""
      | none => ""
  else
    match ai with
    | some p =>
      if optStrTruthy p.title && _is_chinese_text (pyOrEmpty p.title) then pyOrEmpty p.title
      else if tmdb_title ≠ "" && tmdb_title ≠ original_title && _is_chinese_text tmdb_title then
        tmdb_title
      else ""
    | none =>
      if tmdb_title ≠ "" && tmdb_title ≠ original_title && _is_chinese_text tmdb_title then
        tmdb_title
      else ""

/-- `_generate_movie_folder_name` (organizer.py 548-586).  Note line 579:
`parts = [name_part, str(movie_info.year)]` puts the year in
unconditionally, despite the comment on line 578. -/
def _generate_movie_folder_name (mi : MovieInfo) (ai : Option ParsedInfo) : String :=
  let original_title := pyOrEmpty mi.original_title
  let second_title := movie_second_title mi ai
  let name_part :=
    if second_title ≠ "" then "[" ++ original_title ++ "]-[" ++ second_title ++ "]"
    else "[" ++ original_title ++ "]"
  let parts := [name_part, Nat.repr mi.year]
  let parts := parts ++
    (if optStrTruthy mi.imdb_id && !(pyStrip (pyOrEmpty mi.imdb_id) == "")
        && pyNe mi.imdb_id (some "unknown") then
      [pyOrEmpty mi.imdb_id] else [])
  let parts := parts ++
    (if !(mi.tmdb_id == "") && !(pyStrip mi.tmdb_id == "") then [mi.tmdb_id] else [])
  String.intercalate "-" parts

/-- The `secondary_title` computed in `_generate_tv_folder_name`
(organizer.py 770-787): same shape as the movie case. -/
def tv_second_title (show_info : TVShowInfo) (ai : Option ParsedInfo) : String :=
  let tmdb_original_name := pyOrEmpty show_info.original_name
  let tmdb_name := pyOrEmpty show_info.name
  if _is_chinese_text tmdb_original_name then
    if tmdb_name ≠ "" && !_is_chinese_text tmdb_name then tmdb_name
    else
      match ai with
      | some p =>
        if optStrTruthy p.original_title && !_is_chinese_text (pyOrEmpty p.original_title) then
          pyOrEmpty p.original_title
        else ""
      | none => ""
  else
    match ai with
    | some p =>
      if optStrTruthy p.title && _is_chinese_text (pyOrEmpty p.title) then pyOrEmpty p.title
      else if tmdb_name ≠ "" && tmdb_name ≠ tmdb_original_name && _is_chinese_text tmdb_name then
        tmdb_name
      else ""
    | none =>
      if tmdb_name ≠ "" && tmdb_name ≠ tmdb_original_name && _is_chinese_text tmdb_name then
        tmdb_name
      else ""

/-- `_generate_tv_folder_name` (organizer.py 763-806): no year segment;
the id segments are joined to the name part only when present. -/
def _generate_tv_folder_name (show_info : TVShowInfo) (ai : Option ParsedInfo) : String :=
  let primary_title := pyOrEmpty show_info.original_name
  let secondary_title := tv_second_title show_info ai
  let name_part :=
    if secondary_title ≠ "" then "[" ++ primary_title ++ "]-[" ++ secondary_title ++ "]"
    else "[" ++ primary_title ++ "]"
  let id_parts :=
    (if optStrTruthy show_info.imdb_id && !(pyStrip (pyOrEmpty show_info.imdb_id) == "")
        && pyNe show_info.imdb_id (some "unknown") then
      [pyOrEmpty show_info.imdb_id] else []) ++
    (if !(show_info.tmdb_id == "") && !(pyStrip show_info.tmdb_id == "") then [show_info.tmdb_id] else [])
  if !id_parts.isEmpty then name_part ++ "-" ++ String.intercalate "-" id_parts
  else name_part

/-! ## Naming engine: video-info extraction
(`FileOrganizer._extract_video_info_from_filename` and
`_extract_first_match`, organizer.py 665-726).

`_extract_first_match` runs `re.search(pattern, text, re.IGNORECASE)` for
each pattern in order and returns `match.group(1)` of the first hit.  Each
pattern here is either a group of literal alternatives or the single
pattern `(\d{3,4}p)`, so `re.search` is modelled operationally: scan start
positions left to right; at a position try the alternatives in order
(for `\d{3,4}` greedily, four digits before three).  `\d` is modelled as
an ASCII digit. -/

/-- Case-insensitive character comparison (`re.IGNORECASE`). -/
def charEqCI (a b : Char) : Bool := a.toLower == b.toLower

/-- Match literal `pat` case-insensitively at the head of `l`, returning the
consumed text in its original case. -/
def matchLitCIAt : List Char → List Char → Option (List Char)
  | [], _ => some []
  | _ :: _, [] => none
  | p :: ps, c :: cs =>
    if charEqCI p c then (matchLitCIAt ps cs).map (c :: ·) else none

/-- First alternative of the group matching at this position. -/
def firstAltAt (alts : List String) (l : List Char) : Option (List Char) :=
  alts.findSome? fun a => matchLitCIAt a.data l

/-- Match `\d{3,4}p` (case-insensitive `p`) at this position, greedily
preferring four digits, backtracking to three. -/
def matchDigits34pAt : List Char → Option (List Char)
  | d1 :: d2 :: d3 :: rest =>
    if d1.isDigit && d2.isDigit && d3.isDigit then
      match rest with
      | d4 :: p :: _ =>
        if d4.isDigit && (p == 'p' || p == 'P') then some [d1, d2, d3, d4, p]
        else if d4 == 'p' || d4 == 'P' then some [d1, d2, d3, d4]
        else none
      | [d4] => if d4 == 'p' || d4 == 'P' then some [d1, d2, d3, d4] else none
      | [] => none
    else none
  | _ => none

/-- One video-info regex: `(\d{3,4}p)` or a group of literal alternatives. -/
inductive ReGroupPat where
  | digits34p
  | lits (alts : List String)

/-- Attempt a pattern at one start position. -/
def patMatchAt : ReGroupPat → List Char → Option (List Char)
  | .digits34p, l => matchDigits34pAt l
  | .lits alts, l => firstAltAt alts l

/-- `re.search`: leftmost start position wins; returns the matched text. -/
def reSearchCI (p : ReGroupPat) : List Char → Option String
  | [] => (patMatchAt p []).map List.asString
  | l@(_ :: tl) =>
    match patMatchAt p l with
    | some m => some m.asString
    | none => reSearchCI p tl

/-- `_extract_first_match` (organizer.py 719-726): first pattern in list
order with a match anywhere in the text gives its `group(1)`. -/
def _extract_first_match (text : String) (patterns : List ReGroupPat) : Option String :=
  patterns.findSome? fun p => reSearchCI p text.data

/-- `resolution_patterns` (organizer.py 670-680). -/
def resolution_patterns : List ReGroupPat :=
  [.digits34p, .lits ["4K"], .lits ["HD"], .lits ["UHD"], .lits ["2160p"],
   .lits ["1440p"], .lits ["1080p"], .lits ["720p"], .lits ["480p"]]

/-- `format_patterns` (organizer.py 682-689). -/
def format_patterns : List ReGroupPat :=
  [.lits ["BluRay", "Blu-ray", "BD"], .lits ["WEB-DL", "WEBDL", "WEB"],
   .lits ["DVDRip", "DVD"], .lits ["BRRip", "BDRip"], .lits ["HDRip"],
   .lits ["CAM", "TS", "TC"]]

/-- `codec_patterns` (organizer.py 691-695). -/
def codec_patterns : List ReGroupPat :=
  [.lits ["x264", "x265", "h264", "h265", "HEVC", "AVC"],
   .lits ["DivX", "XviD"], .lits ["VP9", "AV1"]]

/-- `audio_patterns` (organizer.py 697-701); `\.` is a literal dot. -/
def audio_patterns : List ReGroupPat :=
  [.lits ["DTS", "AC3", "AAC", "MP3", "FLAC", "DD5.1", "DDP5.1"],
   .lits ["5.1", "7.1", "2.0"], .lits ["Atmos"]]

/-- Case-sensitive list inclusion of `needle` at the head of `hay`. -/
def isPrefixOfChars : List Char → List Char → Bool
  | [], _ => true
  | _ :: _, [] => false
  | p :: ps, c :: cs => p == c && isPrefixOfChars ps cs

/-- Python's case-sensitive `needle in hay` substring test. -/
def containsSub (needle : List Char) : List Char → Bool
  | [] => isPrefixOfChars needle []
  | l@(_ :: tl) => isPrefixOfChars needle l || containsSub needle tl

/-- Python `needle in hay` on strings. -/
def strContains (hay needle : String) : Bool := containsSub needle.data hay.data

/-- Python `str.upper()` (ASCII; CJK characters are unaffected either way). -/
def pyUpper (s : String) : String := (s.data.map Char.toUpper).asString

/-- Python `str.lower()` (ASCII). -/
def pyLower (s : String) : String := (s.data.map Char.toLower).asString

/-- Case-insensitive presence of `needle` anywhere in `hay` (what claim C5
asserts for both the "4K" and the "2160p" check). -/
def strContainsCI (hay needle : String) : Bool :=
  containsSub (needle.data.map Char.toLower) (hay.data.map Char.toLower)

/-- `_extract_video_info_from_filename` (organizer.py 665-717).  The special
case on line 710 tests `'4K' in filename.upper() or '2160p' in filename`:
the second membership test is case-sensitive. -/
def _extract_video_info_from_filename (filename : String) : String :=
  let resolution := (_extract_first_match filename resolution_patterns).getD "1080p"
  let format_info := (_extract_first_match filename format_patterns).getD "WEB-DL"
  let codec := (_extract_first_match filename codec_patterns).getD "x264"
  let audio := (_extract_first_match filename audio_patterns).getD "AAC"
  let resolution :=
    if strContains (pyUpper filename) "4K" || strContains filename "2160p" then "2160p"
    else resolution
  let bit_depth :=
    if ["10bit", "10-bit", "x265", "HEVC"].any (fun x => strContains filename x) then "10bit"
    else "8bit"
  resolution ++ "-" ++ format_info ++ "-" ++ codec ++ "-" ++ bit_depth ++ "-" ++ audio

/-! ## A small verified regular-expression engine

The idempotency-guard recognizers (`_is_organized_folder` in both
scanner.py and organizer.py, and `_is_country_folder`) are anchored
`re.match` patterns built from literals, `.`, `\d`, `+`, `{n}`,
alternation and `*`.  They are embedded through a Brzozowski-derivative
matcher over character classes, with `$` handled as "end of string, or
just before a trailing newline" as in Python's non-MULTILINE `$`. -/

/-- Regular expressions over `Char` with executable character classes. -/
inductive RE where
  | zero
  | eps
  | cls (p : Char → Bool)
  | alt (r₁ r₂ : RE)
  | seq (r₁ r₂ : RE)
  | star (r : RE)

/-- Does the expression accept the empty string? -/
def RE.matchEpsilon : RE → Bool
  | .zero => false
  | .eps => true
  | .cls _ => false
  | .alt a b => a.matchEpsilon || b.matchEpsilon
  | .seq a b => a.matchEpsilon && b.matchEpsilon
  | .star _ => true

/-- Brzozowski derivative with respect to one character. -/
def RE.deriv : RE → Char → RE
  | .zero, _ => .zero
  | .eps, _ => .zero
  | .cls p, c => if p c then .eps else .zero
  | .alt a b, c => .alt (a.deriv c) (b.deriv c)
  | .seq a b, c =>
    if a.matchEpsilon then .alt (.seq (a.deriv c) b) (b.deriv c)
    else .seq (a.deriv c) b
  | .star r, c => .seq (r.deriv c) (.star r)

/-- Whole-string matching by iterated derivatives. -/
def RE.rmatch : RE → List Char → Bool
  | r, [] => r.matchEpsilon
  | r, c :: cs => (r.deriv c).rmatch cs

/-- A literal string as a regular expression. -/
def reLit (s : String) : RE :=
  s.data.foldr (fun c r => .seq (.cls (fun x => x == c)) r) .eps

/-- `.` outside DOTALL: any character except a newline. -/
def reDot : RE := .cls (fun c => c ≠ '\n')

/-- `.*` -/
def reDotStar : RE := .star reDot

/-- `\d`, modelled as an ASCII digit. -/
def reDigit : RE := .cls Char.isDigit

/-- Concatenation of a pattern list. -/
def reCat (rs : List RE) : RE := rs.foldr .seq .eps

/-- `\d{4}` -/
def reDigits4 : RE := reCat [reDigit, reDigit, reDigit, reDigit]

/-- `\d+` -/
def reDigitsPlus : RE := .seq reDigit (.star reDigit)

/-- Python `re.match` of an `...$`-terminated pattern: the pattern must
cover the whole string, or the whole string minus one trailing newline. -/
def pyMatchDollar (r : RE) (s : String) : Bool :=
  r.rmatch s.data ||
    (match s.data.getLast? with
     | some c => if c = '\n' then r.rmatch s.data.dropLast else false
     | none => false)

/-- organizer.py 906: full movie pattern with IMDB and TMDB. -/
def org_pattern_1 : RE :=
  reCat [reLit "[", reDotStar, reLit "]-[", reDotStar, reLit "]-", reDigits4,
    reLit "-tt", reDigitsPlus, reLit "-", reDigitsPlus]

/-- organizer.py 907: full movie pattern with TMDB only. -/
def org_pattern_2 : RE :=
  reCat [reLit "[", reDotStar, reLit "]-[", reDotStar, reLit "]-", reDigits4,
    reLit "-", reDigitsPlus]

/-- organizer.py 908: single title movie pattern with IMDB and TMDB. -/
def org_pattern_3 : RE :=
  reCat [reLit "[", reDotStar, reLit "]-", reDigits4, reLit "-tt", reDigitsPlus,
    reLit "-", reDigitsPlus]

/-- organizer.py 909: single title movie pattern with TMDB only. -/
def org_pattern_4 : RE :=
  reCat [reLit "[", reDotStar, reLit "]-", reDigits4, reLit "-", reDigitsPlus]

/-- organizer.py 910: TV show pattern with IMDB and TMDB. -/
def org_pattern_5 : RE :=
  reCat [reLit "[", reDotStar, reLit "]-[", reDotStar, reLit "]-tt",
    reDigitsPlus, reLit "-", reDigitsPlus]

/-- organizer.py 911: TV show pattern with TMDB only. -/
def org_pattern_6 : RE :=
  reCat [reLit "[", reDotStar, reLit "]-[", reDotStar, reLit "]-", reDigitsPlus]

/-- organizer.py 912: single title TV show pattern with IMDB and TMDB. -/
def org_pattern_7 : RE :=
  reCat [reLit "[", reDotStar, reLit "]-tt", reDigitsPlus, reLit "-", reDigitsPlus]

/-- organizer.py 913: single title TV show pattern with TMDB only. -/
def org_pattern_8 : RE :=
  reCat [reLit "[", reDotStar, reLit "]-", reDigitsPlus]

/-- `FileOrganizer._is_organized_folder` (organizer.py 902-915). -/
def organizer_is_organized_folder (folder_name : String) : Bool :=
  [org_pattern_1, org_pattern_2, org_pattern_3, org_pattern_4,
   org_pattern_5, org_pattern_6, org_pattern_7, org_pattern_8].any
    fun r => pyMatchDollar r folder_name

/-- `(tt\d+|unknown)` of the scanner's patterns. -/
def ttOrUnknown : RE := .alt (.seq (reLit "tt") reDigitsPlus) (reLit "unknown")

/-- scanner.py 320: full movie pattern with IMDB. -/
def sc_pattern_1 : RE :=
  reCat [reLit "[", reDotStar, reLit "]-[", reDotStar, reLit "]-", reDigits4,
    reLit "-", ttOrUnknown, reLit "-", reDigitsPlus]

/-- scanner.py 321: single title movie pattern. -/
def sc_pattern_2 : RE :=
  reCat [reLit "[", reDotStar, reLit "]-", reDigits4, reLit "-", ttOrUnknown,
    reLit "-", reDigitsPlus]

/-- scanner.py 322: TV show pattern. -/
def sc_pattern_3 : RE :=
  reCat [reLit "[", reDotStar, reLit "]-[", reDotStar, reLit "]-", ttOrUnknown,
    reLit "-", reDigitsPlus]

/-- `MediaScanner._is_organized_folder` (scanner.py 316-324): only three
shapes, every one of them demanding a `tt<digits>` or `unknown` token. -/
def scanner_is_organized_folder (folder_name : String) : Bool :=
  [sc_pattern_1, sc_pattern_2, sc_pattern_3].any fun r => pyMatchDollar r folder_name

/-- `[A-Z]` -/
def reUpperAZ : RE := .cls (fun c => 'A' ≤ c && c ≤ 'Z')

/-- `[A-Za-z_]` -/
def reWordLetter : RE :=
  .cls (fun c => ('A' ≤ c && c ≤ 'Z') || ('a' ≤ c && c ≤ 'z') || c == '_')

/-- `^[A-Z]{2,3}_[A-Za-z_]+$` (organizer.py 646-651). -/
def country_pattern : RE :=
  reCat [reUpperAZ, reUpperAZ, .alt reUpperAZ .eps, reLit "_",
    .seq reWordLetter (.star reWordLetter)]

/-- `FileOrganizer._is_country_folder` (organizer.py 646-651). -/
def _is_country_folder (folder_name : String) : Bool :=
  pyMatchDollar country_pattern folder_name

/-! ## POSIX path helpers (`os.path` on the posix flavour used here). -/

/-- `str.rfind(c)`: index of the last occurrence, if any. -/
def pyRfindAux (c : Char) : List Char → Nat → Option Nat
  | [], _ => none
  | x :: xs, i =>
    match pyRfindAux c xs (i + 1) with
    | some j => some j
    | none => if x == c then some i else none

/-- Last index of a character in a string. -/
def pyRfind (c : Char) (s : String) : Option Nat := pyRfindAux c s.data 0

/-- `os.path.join(a, b)` for two components (the prefix/suffix tests are
spelled out on the character list to stay kernel-reducible). -/
def os_path_join (a b : String) : String :=
  if b.data.head? == some '/' then b
  else if a = "" then b
  else if a.data.getLast? == some '/' then a ++ b
  else a ++ "/" ++ b

/-- `os.path.basename`. -/
def os_path_basename (p : String) : String :=
  match pyRfind '/' p with
  | some i => (p.data.drop (i + 1)).asString
  | none => p

/-- `os.path.dirname` (posix): text before the final slash, with trailing
slashes stripped unless the result is all slashes. -/
def os_path_dirname (p : String) : String :=
  match pyRfind '/' p with
  | some i =>
    let head := p.data.take (i + 1)
    if head.any (fun c => c ≠ '/') then
      ((head.reverse.dropWhile (· == '/')).reverse).asString
    else head.asString
  | none => ""

/-- `os.path.splitext` (posix): split at the last dot of the basename,
unless every character before it in the basename is itself a dot. -/
def os_path_splitext (p : String) : String × String :=
  let chars := p.data
  let sepIndex : Int := ((pyRfind '/' p).map Int.ofNat).getD (-1)
  let dotIndex : Int := ((pyRfind '.' p).map Int.ofNat).getD (-1)
  if sepIndex < dotIndex then
    let di := dotIndex.toNat
    let fi := (sepIndex + 1).toNat
    if ((chars.drop fi).take (di - fi)).any (fun c => c ≠ '.') then
      ((chars.take di).asString, (chars.drop di).asString)
    else (p, "")
  else (p, "")

/-! ## Plan/execute engine (`FileOrganizer._execute_move`,
organizer.py 997-1019).  The filesystem is the list of existing file
paths; a move removes the source and adds the final destination. -/

/-- Python `f"{n:02d}"` for the conflict counter. -/
def fmt2 (n : Nat) : String := if n < 10 then "0" ++ Nat.repr n else Nat.repr n

/-- The candidate name tried for conflict counter `n` (organizer.py 1010). -/
def conflict_candidate (base ext : String) (n : Nat) : String :=
  base ++ "-" ++ fmt2 n ++ ext

/-- The `while os.path.exists(final_destination)` loop of organizer.py
1009-1011, with explicit fuel (the Python loop re-tests a fixed snapshot of
the filesystem, so `fs.length + 1` distinct free names always exist). -/
def resolve_conflict_loop (fs : List String) (base ext : String) :
    Nat → Nat → String
  | 0, counter => conflict_candidate base ext counter
  | fuel + 1, counter =>
    let cand := conflict_candidate base ext counter
    if cand ∈ fs then resolve_conflict_loop fs base ext fuel (counter + 1)
    else cand

/-- Final destination chosen by `_execute_move` (organizer.py 1003-1012):
the literal destination when free, otherwise `base-01ext`, `base-02ext`, …
until a free name is found. -/
def resolve_destination (fs : List String) (dest : String) : String :=
  if dest ∈ fs then
    let be := os_path_splitext dest
    resolve_conflict_loop fs be.1 be.2 (fs.length + 1) 1
  else dest

/-- Organizer state: the ordered operations log and the filesystem. -/
structure OrgState where
  ops : List FileOperation
  fs : List String
deriving DecidableEq, Repr

/-- `_execute_move` (organizer.py 997-1019): resolve the destination
against the current filesystem, then move the source there. -/
def _execute_move (st : OrgState) (op : FileOperation) : OrgState :=
  let final := resolve_destination st.fs op.destination
  { st with fs := st.fs.erase op.source ++ [final] }

/-! ## Organizer operations (organizer.py).  `dry_run` comes from
`config['processing']['dry_run']`; directory listings and related-file
scans are filesystem reads supplied as arguments. -/

/-- `_get_country_folder_name` (organizer.py 598-611). -/
def _get_country_folder_name (mi : MovieInfo) : String :=
  match mi.production_countries with
  | none => "Unknown_Unknown"
  | some [] => "Unknown_Unknown"
  | some (c :: _) =>
    let iso_code := c.iso_3166_1.getD "Unknown"
    let nm := c.name.getD "Unknown"
    let clean_name :=
      (((nm.data.map fun c => if c == ' ' then '_' else c).foldr
        (fun c acc => if c == '&' then 'a' :: 'n' :: 'd' :: acc else c :: acc) [])).asString
    iso_code ++ "_" ++ clean_name

/-- `_generate_movie_file_name` (organizer.py 653-663). -/
def _generate_movie_file_name (mi : MovieInfo) (source_path : String)
    (ai : Option ParsedInfo) : String :=
  let ext := (os_path_splitext source_path).2
  let original_filename := os_path_basename source_path
  let base_name := _generate_movie_folder_name mi ai
  let video_info := _extract_video_info_from_filename original_filename
  base_name ++ "-" ++ video_info ++ ext

/-- The movie destination directory of `organize_movie` (organizer.py
31-39). -/
def movie_dest_dir (country_folder : Bool) (mi : MovieInfo) (root_dir : String)
    (ai : Option ParsedInfo) : String :=
  let folder_name := _generate_movie_folder_name mi ai
  if country_folder then
    os_path_join (os_path_join root_dir (_get_country_folder_name mi)) folder_name
  else os_path_join root_dir folder_name

/-- The main `FileOperation` built by `organize_movie` (organizer.py 41-51). -/
def movie_main_operation (country_folder : Bool) (mi : MovieInfo)
    (source_path root_dir : String) (ai : Option ParsedInfo) : FileOperation :=
  ⟨"move", source_path,
    os_path_join (movie_dest_dir country_folder mi root_dir ai)
      (_generate_movie_file_name mi source_path ai),
    "Organize movie: " ++ pyStr mi.title⟩

/-- The operation built for one related file (organizer.py 58-65). -/
def related_file_operation (dest_dir f : String) : FileOperation :=
  ⟨"move", f, os_path_join dest_dir (os_path_basename f),
    "Move related file: " ++ os_path_basename f⟩

/-- `organize_movie` (organizer.py 25-93).  `related_files` is the result
of the `_find_related_files` filesystem scan.  In the dry-run branch
(lines 53-67) the main operation and one operation per related file are
appended to the log and nothing else happens; in live mode (lines 68-87)
the moves are executed and the NFO/poster files are created when absent. -/
def organize_movie (dry_run country_folder : Bool) (st : OrgState)
    (mi : MovieInfo) (source_path root_dir : String) (ai : Option ParsedInfo)
    (related_files : List String) : OrgState :=
  let dest_dir := movie_dest_dir country_folder mi root_dir ai
  let operation := movie_main_operation country_folder mi source_path root_dir ai
  if dry_run then
    let related_ops := related_files.map fun f => related_file_operation dest_dir f
    { st with ops := st.ops ++ operation :: related_ops }
  else
    let st1 := _execute_move st operation
    let st2 := related_files.foldl (fun s f =>
      { s with fs := s.fs.erase f ++ [os_path_join dest_dir (os_path_basename f)] }) st1
    let nfo_path := os_path_join dest_dir "media_info.nfo"
    let st3 := if nfo_path ∈ st2.fs then st2 else { st2 with fs := st2.fs ++ [nfo_path] }
    let poster_path := os_path_join dest_dir "poster.jpg"
    if optStrTruthy mi.poster_path then
      if poster_path ∈ st3.fs then st3 else { st3 with fs := st3.fs ++ [poster_path] }
    else st3

/-- The operation built by `move_to_unmatched` (organizer.py 167-176). -/
def unmatched_operation (file_path : String) : FileOperation :=
  ⟨"move", file_path,
    os_path_join (os_path_join (os_path_dirname file_path) "Unmatched")
      (os_path_basename file_path),
    "Move to Unmatched folder"⟩

/-- `move_to_unmatched` (organizer.py 165-189). -/
def move_to_unmatched (dry_run : Bool) (st : OrgState) (file_path : String) :
    OrgState :=
  if dry_run then { st with ops := st.ops ++ [unmatched_operation file_path] }
  else _execute_move st (unmatched_operation file_path)

/-- The skip tests of `cleanup_unwanted` (organizer.py 196-208). -/
def cleanup_skips (country_folder : Bool) (item : String) : Bool :=
  item == "Unmatched" || item == "Unwanted" || organizer_is_organized_folder item
    || (country_folder && _is_country_folder item)

/-- The operation built by `cleanup_unwanted` for one item
(organizer.py 210-216). -/
def unwanted_operation (source_dir item : String) : FileOperation :=
  ⟨"move", os_path_join source_dir item,
    os_path_join (os_path_join source_dir "Unwanted") item,
    "Move to Unwanted folder"⟩

/-- `cleanup_unwanted` (organizer.py 191-229); `items` is the
`os.listdir(source_dir)` result. -/
def cleanup_unwanted (dry_run country_folder : Bool) (st : OrgState)
    (source_dir : String) (items : List String) : OrgState :=
  items.foldl
    (fun st item =>
      if cleanup_skips country_folder item then st
      else if dry_run then
        { st with ops := st.ops ++ [unwanted_operation source_dir item] }
      else _execute_move st (unwanted_operation source_dir item))
    st

/-! ## Season/episode number extraction (organizer.py 820-894).  The
`\d{1,2}` groups are matched greedily with backtracking against the
following literal; the searches scan positions left to right. -/

/-- Numeric value of an ASCII digit. -/
def digitVal (c : Char) : Nat := c.toNat - '0'.toNat

/-- Greedy candidates for `(\d{1,2})` at a position: two digits first,
then one digit, each with the remaining text. -/
def digits12Candidates : List Char → List (Nat × List Char)
  | d1 :: d2 :: rest =>
    (if d1.isDigit && d2.isDigit then [(digitVal d1 * 10 + digitVal d2, rest)] else []) ++
    (if d1.isDigit then [(digitVal d1, d2 :: rest)] else [])
  | [d1] => if d1.isDigit then [(digitVal d1, [])] else []
  | [] => []

/-- Generic left-to-right `re.search` position scan. -/
def searchPat {β : Type} (m : List Char → Option β) : List Char → Option β
  | [] => m []
  | l@(_ :: tl) =>
    match m l with
    | some r => some r
    | none => searchPat m tl

/-- `s(\d{1,2})e(\d{1,2})` at one position (both capture groups). -/
def matchSEAt : List Char → Option (Nat × Nat)
  | c :: rest =>
    if c == 's' then
      (digits12Candidates rest).findSome? fun sn =>
        match sn.2 with
        | e :: rest3 =>
          if e == 'e' then
            ((digits12Candidates rest3).head?).map fun en => (sn.1, en.1)
          else none
        | [] => none
    else none
  | [] => none

/-- `/s(\d{1,2})/` at one position. -/
def matchSlashSAt : List Char → Option Nat
  | '/' :: 's' :: rest =>
    (digits12Candidates rest).findSome? fun sn =>
      match sn.2 with
      | '/' :: _ => some sn.1
      | _ => none
  | _ => none

/-- `/season\s*(\d{1,2})/` at one position (whitespace and digits are
disjoint, so the greedy `\s*` consumes the maximal run). -/
def matchSeasonWordAt (l : List Char) : Option Nat :=
  if isPrefixOfChars "/season".data l then
    let rest2 := (l.drop 7).dropWhile isPySpace
    (digits12Candidates rest2).findSome? fun sn =>
      match sn.2 with
      | '/' :: _ => some sn.1
      | _ => none
  else none

/-- `_extract_season_number` (organizer.py 820-842). -/
def _extract_season_number (file_path : String) : Nat :=
  let path_str := pyLower file_path
  match searchPat matchSlashSAt path_str.data with
  | some sn => sn
  | none =>
    match searchPat matchSeasonWordAt path_str.data with
    | some sn => sn
    | none =>
      let filename := pyLower (os_path_basename file_path)
      match searchPat matchSEAt filename.data with
      | some se => se.1
      | none => 1

/-- `^(\d{1,2})\.(mp4|mkv|avi)` anchored at the string start. -/
def matchLeadingNumExt (l : List Char) : Option Nat :=
  (digits12Candidates l).findSome? fun n =>
    match n.2 with
    | '.' :: rest2 =>
      if isPrefixOfChars "mp4".data rest2 || isPrefixOfChars "mkv".data rest2
          || isPrefixOfChars "avi".data rest2 then
        some n.1
      else none
    | _ => none

/-- `e(\d{1,2})` at one position. -/
def matchEAt : List Char → Option Nat
  | 'e' :: rest => ((digits12Candidates rest).head?).map Prod.fst
  | _ => none

/-- `_extract_episode_number` (organizer.py 874-894). -/
def _extract_episode_number (file_path : String) : Nat :=
  let filename := pyLower (os_path_basename file_path)
  match searchPat matchSEAt filename.data with
  | some se => se.2
  | none =>
    match matchLeadingNumExt filename.data with
    | some en => en
    | none =>
      match searchPat matchEAt filename.data with
      | some en => en
      | none => 1

/-- The `FileOperation` built for one episode file inside
`_batch_rename_episodes` (organizer.py 846-867). -/
def episode_operation (show_info : TVShowInfo) (season_num : Nat)
    (season_dir file_path : String) : FileOperation :=
  let episode_num := _extract_episode_number file_path
  let ext := (os_path_splitext file_path).2
  let original_filename := os_path_basename file_path
  let video_info := _extract_video_info_from_filename original_filename
  let episode_name :=
    "[" ++ pyStr show_info.original_name ++ "]-S" ++ fmt2 season_num ++ "E"
      ++ fmt2 episode_num ++ "-" ++ video_info ++ ext
  ⟨"move", file_path, os_path_join season_dir episode_name,
    "Organize episode: S" ++ fmt2 season_num ++ "E" ++ fmt2 episode_num⟩

/-- `_batch_rename_episodes` (organizer.py 844-872).  In dry-run mode the
constructed operation is only logged (lines 869-870): it is not appended
to `self.operations`, and nothing is moved. -/
def _batch_rename_episodes (dry_run : Bool) (st : OrgState)
    (files : List String) (season_dir : String) (show_info : TVShowInfo)
    (season_num : Nat) : OrgState :=
  files.foldl
    (fun st file_path =>
      let operation := episode_operation show_info season_num season_dir file_path
      if dry_run then st
      else _execute_move st operation)
    st

/-! ## Season detail (`TMDBMatcher.get_season_info`, matcher.py 107-129,
and its caller organizer.py 114-127). -/

/-- The JSON body of a successful `/tv/{id}/season/{n}` response; every
field is read with `.get`, `episodes` only through its length. -/
structure SeasonApiData where
  season_number : Option Nat
  air_date : Option String
  overview : Option String
  poster_path : Option String
  episodes : List Unit
deriving DecidableEq, Repr

/-- The `SeasonInfo(...)` dataclass constructor call as made on matcher.py
119-125: a keyword-argument call.  `id` and `name` carry no default in the
dataclass (models.py 60-69), so a call that omits them raises `TypeError`. -/
def seasonInfoCtor (id? : Option Nat) (name? : Option String)
    (season_number : Option Nat) (air_date : String) (overview : String)
    (poster_path : Option String) (episode_count : Nat) :
    Except String SeasonInfo :=
  match id?, name? with
  | some i, some nm =>
    .ok ⟨i, nm, season_number, air_date, overview, poster_path, episode_count⟩
  | _, _ => .error "TypeError: SeasonInfo.__init__ missing required arguments id and name"

/-- `get_season_info` (matcher.py 107-129): `resp = none` is a transport
failure (timeout, non-2xx, malformed body).  The body runs inside
`try/except`, so the `TypeError` from the constructor call — which passes
neither `id` nor `name` — is caught by the same handler and also yields
`None`. -/
def get_season_info (resp : Option SeasonApiData) : Option SeasonInfo :=
  match resp with
  | none => none
  | some data =>
    match seasonInfoCtor none none data.season_number (data.air_date.getD "")
        (data.overview.getD "") data.poster_path data.episodes.length with
    | .ok si => some si
    | .error _ => none

/-- The season-year choice made by `organize_tv_show` (organizer.py
114-124): the season's own air-date year when season info arrived with a
truthy air date, else the show's first-air-date year, else `"Unknown"`. -/
def tv_season_year (show_info : TVShowInfo) (season_info : Option SeasonInfo) :
    String :=
  let base :=
    if show_info.first_air_date ≠ "" then (show_info.first_air_date.data.take 4).asString
    else "Unknown"
  match season_info with
  | some si => if si.air_date ≠ "" then (si.air_date.data.take 4).asString else base
  | none => base

/-! ## Scan session bookkeeping (`MediaScanner.parse_with_ai` and
`save_scan_session`, scanner.py 73-139 and 302-314). -/

/-- The `parsed_result` field finally stored in a scan record. -/
inductive ScanOutcomeRecord where
  | parsedFields (chinese_title english_title : Option String) (year : Option Nat)
  | parsing_failed
  | ai_api_failed
  | error (msg : String)
deriving DecidableEq, Repr

/-- One entry of `scan_session["scan_results"]`. -/
structure ScanRecord where
  filename : String
  media_type : MediaType
  folder_context : Option String
  parsed_result : ScanOutcomeRecord
deriving DecidableEq, Repr

/-- `scan_session["summary"]` (scanner.py 36-42). -/
structure ScanSummary where
  total_files : Nat
  successful_parses : Nat
  failed_parses : Nat
  movies : Nat
  tv_shows : Nat
deriving DecidableEq, Repr

/-- The mutable scan-session state (scanner.py 32-43). -/
structure ScanSession where
  scan_results : List ScanRecord
  summary : ScanSummary
deriving DecidableEq, Repr

/-- `parse_with_ai` (scanner.py 73-139) as a state transformer.
`prompt_exn` models an exception raised before the AI call (caught by the
`except` of lines 128-137), `response` the `_call_local_ai` result (which
catches its own errors and returns `None`), and `parse_response` the
`_parse_ai_response` step (likewise `None` on failure). -/
def parse_with_ai (sess : ScanSession) (name : String) (media_type : MediaType)
    (folder_context : Option String) (prompt_exn : Option String)
    (response : Option String) (parse_response : String → Option ParsedInfo) :
    ScanSession × Option ParsedInfo :=
  match prompt_exn with
  | some e =>
    ({ scan_results := sess.scan_results ++ [⟨name, media_type, folder_context, .error e⟩],
       summary := { sess.summary with failed_parses := sess.summary.failed_parses + 1 } },
     none)
  | none =>
    match response with
    | none =>
      ({ scan_results := sess.scan_results ++ [⟨name, media_type, folder_context, .ai_api_failed⟩],
         summary := { sess.summary with failed_parses := sess.summary.failed_parses + 1 } },
       none)
    | some r =>
      match parse_response r with
      | some p =>
        ({ scan_results := sess.scan_results ++
            [⟨name, media_type, folder_context, .parsedFields p.title p.original_title p.year⟩],
           summary := { sess.summary with
             successful_parses := sess.summary.successful_parses + 1,
             movies := if media_type = .movie then sess.summary.movies + 1 else sess.summary.movies,
             tv_shows := if media_type = .movie then sess.summary.tv_shows
               else sess.summary.tv_shows + 1 } },
         some p)
      | none =>
        ({ scan_results := sess.scan_results ++ [⟨name, media_type, folder_context, .parsing_failed⟩],
           summary := { sess.summary with failed_parses := sess.summary.failed_parses + 1 } },
         none)

/-- `save_scan_session` (scanner.py 302-314): before writing the JSON file
it sets `summary["total_files"]` to `len(scan_results)`. -/
def save_scan_session (sess : ScanSession) : ScanSession :=
  { sess with summary := { sess.summary with total_files := sess.scan_results.length } }

/-! # Theorems

First a stock of helper lemmas about the regular-expression engine, the
search loops and string shapes; then one theorem (plus witness or
counterexample) per claim. -/

theorem rmatch_alt (a b : RE) (l : List Char) :
    (RE.alt a b).rmatch l = (a.rmatch l || b.rmatch l) := by
  induction l generalizing a b with
  | nil => rfl
  | cons c cs ih => simpa [RE.rmatch, RE.deriv] using ih (a.deriv c) (b.deriv c)

theorem rmatch_seq_of_eps (r₁ r₂ : RE) (l : List Char)
    (h₁ : r₁.matchEpsilon = true) (h₂ : r₂.rmatch l = true) :
    (RE.seq r₁ r₂).rmatch l = true := by
  cases l with
  | nil => simp [RE.rmatch, RE.matchEpsilon, h₁] at h₂ ⊢; exact h₂
  | cons c cs =>
    show ((RE.seq r₁ r₂).deriv c).rmatch cs = true
    simp only [RE.deriv, h₁, if_true]
    rw [rmatch_alt]
    simp only [Bool.or_eq_true]
    exact Or.inr h₂

theorem rmatch_seq_append (r₁ r₂ : RE) (l₁ l₂ : List Char)
    (h₁ : r₁.rmatch l₁ = true) (h₂ : r₂.rmatch l₂ = true) :
    (RE.seq r₁ r₂).rmatch (l₁ ++ l₂) = true := by
  induction l₁ generalizing r₁ with
  | nil => exact rmatch_seq_of_eps r₁ r₂ l₂ h₁ h₂
  | cons c cs ih =>
    show ((RE.seq r₁ r₂).deriv c).rmatch (cs ++ l₂) = true
    have hstep : (RE.seq (r₁.deriv c) r₂).rmatch (cs ++ l₂) = true := ih (r₁.deriv c) h₁
    by_cases he : r₁.matchEpsilon = true
    · simp only [RE.deriv, he, if_true]
      rw [rmatch_alt, hstep]
      simp
    · simp only [RE.deriv, he, if_false]
      exact hstep

theorem rmatch_cls (p : Char → Bool) (c : Char) (h : p c = true) :
    (RE.cls p).rmatch [c] = true := by
  show ((RE.cls p).deriv c).rmatch [] = true
  simp [RE.deriv, h, RE.rmatch, RE.matchEpsilon]

theorem rmatch_star_append (r : RE) (l₁ l₂ : List Char)
    (h₁ : r.rmatch l₁ = true) (h₂ : (RE.star r).rmatch l₂ = true) :
    (RE.star r).rmatch (l₁ ++ l₂) = true := by
  cases l₁ with
  | nil => exact h₂
  | cons c cs =>
    show (RE.seq (r.deriv c) (RE.star r)).rmatch (cs ++ l₂) = true
    exact rmatch_seq_append _ _ _ _ h₁ h₂

theorem rmatch_star_cls (p : Char → Bool) (l : List Char)
    (h : ∀ c ∈ l, p c = true) : (RE.star (RE.cls p)).rmatch l = true := by
  induction l with
  | nil => rfl
  | cons c cs ih =>
    have := rmatch_star_append (RE.cls p) [c] cs
      (rmatch_cls p c (h c (by simp))) (ih fun x hx => h x (by simp [hx]))
    simpa using this

theorem rmatch_dotStar (l : List Char) (h : ∀ c ∈ l, c ≠ '\n') :
    reDotStar.rmatch l = true :=
  rmatch_star_cls _ l fun c hc => by simpa using h c hc

theorem rmatch_litList (l : List Char) :
    (l.foldr (fun c r => RE.seq (RE.cls (fun x => x == c)) r) RE.eps).rmatch l = true := by
  induction l with
  | nil => rfl
  | cons c cs ih =>
    have h1 : (RE.cls (fun x => x == c)).rmatch [c] = true :=
      rmatch_cls _ _ (by simp)
    simpa using rmatch_seq_append _ _ [c] cs h1 ih

theorem rmatch_reLit (s : String) : (reLit s).rmatch s.data = true :=
  rmatch_litList s.data

theorem rmatch_reCat_cons (r : RE) (rs : List RE) (l₁ l₂ : List Char)
    (h₁ : r.rmatch l₁ = true) (h₂ : (reCat rs).rmatch l₂ = true) :
    (reCat (r :: rs)).rmatch (l₁ ++ l₂) = true :=
  rmatch_seq_append _ _ _ _ h₁ h₂

theorem rmatch_reCat_nil : (reCat []).rmatch [] = true := rfl

theorem rmatch_digitsPlus (l : List Char) (hne : l ≠ [])
    (h : ∀ c ∈ l, c.isDigit = true) : reDigitsPlus.rmatch l = true := by
  cases l with
  | nil => exact absurd rfl hne
  | cons c cs =>
    have h1 : reDigit.rmatch [c] = true := rmatch_cls _ _ (h c (by simp))
    have h2 : (RE.star reDigit).rmatch cs = true :=
      rmatch_star_cls _ cs fun x hx => h x (by simp [hx])
    simpa using rmatch_seq_append reDigit (RE.star reDigit) [c] cs h1 h2

theorem rmatch_digitsRep (n : Nat) (l : List Char) (hl : l.length = n)
    (h : ∀ c ∈ l, c.isDigit = true) :
    (reCat (List.replicate n reDigit)).rmatch l = true := by
  induction n generalizing l with
  | zero =>
    have : l = [] := List.length_eq_zero.mp hl
    subst this; rfl
  | succ n ih =>
    cases l with
    | nil => simp at hl
    | cons c cs =>
      have h1 : reDigit.rmatch [c] = true := rmatch_cls _ _ (h c (by simp))
      have h2 := ih cs (by simpa using hl) fun x hx => h x (by simp [hx])
      simpa using rmatch_reCat_cons reDigit _ [c] cs h1 h2

theorem rmatch_digits4 (l : List Char) (hl : l.length = 4)
    (h : ∀ c ∈ l, c.isDigit = true) : reDigits4.rmatch l = true :=
  rmatch_digitsRep 4 l hl h

theorem pyMatchDollar_of_rmatch (r : RE) (s : String)
    (h : r.rmatch s.data = true) : pyMatchDollar r s = true := by
  simp [pyMatchDollar, h]

theorem organizer_folder_of_pattern (r : RE) (s : String)
    (hr : r ∈ [org_pattern_1, org_pattern_2, org_pattern_3, org_pattern_4,
      org_pattern_5, org_pattern_6, org_pattern_7, org_pattern_8])
    (h : r.rmatch s.data = true) : organizer_is_organized_folder s = true := by
  simp only [organizer_is_organized_folder, List.any_eq_true]
  exact ⟨r, hr, pyMatchDollar_of_rmatch r s h⟩

theorem scanner_folder_of_pattern (r : RE) (s : String)
    (hr : r ∈ [sc_pattern_1, sc_pattern_2, sc_pattern_3])
    (h : r.rmatch s.data = true) : scanner_is_organized_folder s = true := by
  simp only [scanner_is_organized_folder, List.any_eq_true]
  exact ⟨r, hr, pyMatchDollar_of_rmatch r s h⟩

theorem rmatch_ttOrUnknown (ds : List Char) (hds : ds ≠ [])
    (hdsd : ∀ c ∈ ds, c.isDigit = true) :
    ttOrUnknown.rmatch ('t' :: 't' :: ds) = true := by
  rw [ttOrUnknown, rmatch_alt]
  have h1 : (reLit "tt").rmatch ['t', 't'] = true := by decide
  have := rmatch_seq_append (reLit "tt") reDigitsPlus ['t', 't'] ds h1
    (rmatch_digitsPlus ds hds hdsd)
  simp only [List.cons_append, List.nil_append] at this
  simp [this]

theorem rmatch_sc1 (t1 t2 yl ds es : List Char)
    (ht1 : ∀ c ∈ t1, c ≠ '\n') (ht2 : ∀ c ∈ t2, c ≠ '\n')
    (hyl : yl.length = 4) (hyld : ∀ c ∈ yl, c.isDigit = true)
    (hds : ds ≠ []) (hdsd : ∀ c ∈ ds, c.isDigit = true)
    (hes : es ≠ []) (hesd : ∀ c ∈ es, c.isDigit = true) :
    sc_pattern_1.rmatch
      ('[' :: t1 ++ ']' :: '-' :: '[' :: t2 ++ ']' :: '-' ::
        (yl ++ '-' :: 't' :: 't' :: (ds ++ '-' :: es))) = true := by
  have h :=
    rmatch_reCat_cons (reLit "[") _ ['['] _ (by decide)
      (rmatch_reCat_cons reDotStar _ t1 _ (rmatch_dotStar t1 ht1)
        (rmatch_reCat_cons (reLit "]-[") _ [']', '-', '['] _ (by decide)
          (rmatch_reCat_cons reDotStar _ t2 _ (rmatch_dotStar t2 ht2)
            (rmatch_reCat_cons (reLit "]-") _ [']', '-'] _ (by decide)
              (rmatch_reCat_cons reDigits4 _ yl _ (rmatch_digits4 yl hyl hyld)
                (rmatch_reCat_cons (reLit "-") _ ['-'] _ (by decide)
                  (rmatch_reCat_cons ttOrUnknown _ ('t' :: 't' :: ds) _
                      (rmatch_ttOrUnknown ds hds hdsd)
                    (rmatch_reCat_cons (reLit "-") _ ['-'] _ (by decide)
                      (rmatch_reCat_cons reDigitsPlus [] es []
                        (by simpa using rmatch_digitsPlus es hes hesd)
                        rmatch_reCat_nil)))))))))
  simpa [sc_pattern_1] using h

theorem rmatch_sc2 (t1 yl ds es : List Char)
    (ht1 : ∀ c ∈ t1, c ≠ '\n')
    (hyl : yl.length = 4) (hyld : ∀ c ∈ yl, c.isDigit = true)
    (hds : ds ≠ []) (hdsd : ∀ c ∈ ds, c.isDigit = true)
    (hes : es ≠ []) (hesd : ∀ c ∈ es, c.isDigit = true) :
    sc_pattern_2.rmatch
      ('[' :: t1 ++ ']' :: '-' :: (yl ++ '-' :: 't' :: 't' :: (ds ++ '-' :: es))) = true := by
  have h :=
    rmatch_reCat_cons (reLit "[") _ ['['] _ (by decide)
      (rmatch_reCat_cons reDotStar _ t1 _ (rmatch_dotStar t1 ht1)
        (rmatch_reCat_cons (reLit "]-") _ [']', '-'] _ (by decide)
          (rmatch_reCat_cons reDigits4 _ yl _ (rmatch_digits4 yl hyl hyld)
            (rmatch_reCat_cons (reLit "-") _ ['-'] _ (by decide)
              (rmatch_reCat_cons ttOrUnknown _ ('t' :: 't' :: ds) _
                  (rmatch_ttOrUnknown ds hds hdsd)
                (rmatch_reCat_cons (reLit "-") _ ['-'] _ (by decide)
                  (rmatch_reCat_cons reDigitsPlus [] es []
                    (by simpa using rmatch_digitsPlus es hes hesd)
                    rmatch_reCat_nil)))))))
  simpa [sc_pattern_2] using h

theorem rmatch_sc3 (t1 t2 ds es : List Char)
    (ht1 : ∀ c ∈ t1, c ≠ '\n') (ht2 : ∀ c ∈ t2, c ≠ '\n')
    (hds : ds ≠ []) (hdsd : ∀ c ∈ ds, c.isDigit = true)
    (hes : es ≠ []) (hesd : ∀ c ∈ es, c.isDigit = true) :
    sc_pattern_3.rmatch
      ('[' :: t1 ++ ']' :: '-' :: '[' :: t2 ++ ']' :: '-' ::
        't' :: 't' :: (ds ++ '-' :: es)) = true := by
  have h :=
    rmatch_reCat_cons (reLit "[") _ ['['] _ (by decide)
      (rmatch_reCat_cons reDotStar _ t1 _ (rmatch_dotStar t1 ht1)
        (rmatch_reCat_cons (reLit "]-[") _ [']', '-', '['] _ (by decide)
          (rmatch_reCat_cons reDotStar _ t2 _ (rmatch_dotStar t2 ht2)
            (rmatch_reCat_cons (reLit "]-") _ [']', '-'] _ (by decide)
              (rmatch_reCat_cons ttOrUnknown _ ('t' :: 't' :: ds) _
                  (rmatch_ttOrUnknown ds hds hdsd)
                (rmatch_reCat_cons (reLit "-") _ ['-'] _ (by decide)
                  (rmatch_reCat_cons reDigitsPlus [] es []
                    (by simpa using rmatch_digitsPlus es hes hesd)
                    rmatch_reCat_nil)))))))
  simpa [sc_pattern_3] using h

theorem rmatch_org1 (t1 t2 yl ds es : List Char)
    (ht1 : ∀ c ∈ t1, c ≠ '\n') (ht2 : ∀ c ∈ t2, c ≠ '\n')
    (hyl : yl.length = 4) (hyld : ∀ c ∈ yl, c.isDigit = true)
    (hds : ds ≠ []) (hdsd : ∀ c ∈ ds, c.isDigit = true)
    (hes : es ≠ []) (hesd : ∀ c ∈ es, c.isDigit = true) :
    org_pattern_1.rmatch
      ('[' :: t1 ++ ']' :: '-' :: '[' :: t2 ++ ']' :: '-' ::
        (yl ++ '-' :: 't' :: 't' :: (ds ++ '-' :: es))) = true := by
  have h :=
    rmatch_reCat_cons (reLit "[") _ ['['] _ (by decide)
      (rmatch_reCat_cons reDotStar _ t1 _ (rmatch_dotStar t1 ht1)
        (rmatch_reCat_cons (reLit "]-[") _ [']', '-', '['] _ (by decide)
          (rmatch_reCat_cons reDotStar _ t2 _ (rmatch_dotStar t2 ht2)
            (rmatch_reCat_cons (reLit "]-") _ [']', '-'] _ (by decide)
              (rmatch_reCat_cons reDigits4 _ yl _ (rmatch_digits4 yl hyl hyld)
                (rmatch_reCat_cons (reLit "-tt") _ ['-', 't', 't'] _ (by decide)
                  (rmatch_reCat_cons reDigitsPlus _ ds _
                      (rmatch_digitsPlus ds hds hdsd)
                    (rmatch_reCat_cons (reLit "-") _ ['-'] _ (by decide)
                      (rmatch_reCat_cons reDigitsPlus [] es []
                        (by simpa using rmatch_digitsPlus es hes hesd)
                        rmatch_reCat_nil)))))))))
  simpa [org_pattern_1] using h

theorem rmatch_org2 (t1 t2 yl es : List Char)
    (ht1 : ∀ c ∈ t1, c ≠ '\n') (ht2 : ∀ c ∈ t2, c ≠ '\n')
    (hyl : yl.length = 4) (hyld : ∀ c ∈ yl, c.isDigit = true)
    (hes : es ≠ []) (hesd : ∀ c ∈ es, c.isDigit = true) :
    org_pattern_2.rmatch
      ('[' :: t1 ++ ']' :: '-' :: '[' :: t2 ++ ']' :: '-' ::
        (yl ++ '-' :: es)) = true := by
  have h :=
    rmatch_reCat_cons (reLit "[") _ ['['] _ (by decide)
      (rmatch_reCat_cons reDotStar _ t1 _ (rmatch_dotStar t1 ht1)
        (rmatch_reCat_cons (reLit "]-[") _ [']', '-', '['] _ (by decide)
          (rmatch_reCat_cons reDotStar _ t2 _ (rmatch_dotStar t2 ht2)
            (rmatch_reCat_cons (reLit "]-") _ [']', '-'] _ (by decide)
              (rmatch_reCat_cons reDigits4 _ yl _ (rmatch_digits4 yl hyl hyld)
                (rmatch_reCat_cons (reLit "-") _ ['-'] _ (by decide)
                  (rmatch_reCat_cons reDigitsPlus [] es []
                    (by simpa using rmatch_digitsPlus es hes hesd)
                    rmatch_reCat_nil)))))))
  simpa [org_pattern_2] using h

theorem rmatch_org3 (t1 yl ds es : List Char)
    (ht1 : ∀ c ∈ t1, c ≠ '\n')
    (hyl : yl.length = 4) (hyld : ∀ c ∈ yl, c.isDigit = true)
    (hds : ds ≠ []) (hdsd : ∀ c ∈ ds, c.isDigit = true)
    (hes : es ≠ []) (hesd : ∀ c ∈ es, c.isDigit = true) :
    org_pattern_3.rmatch
      ('[' :: t1 ++ ']' :: '-' :: (yl ++ '-' :: 't' :: 't' :: (ds ++ '-' :: es))) = true := by
  have h :=
    rmatch_reCat_cons (reLit "[") _ ['['] _ (by decide)
      (rmatch_reCat_cons reDotStar _ t1 _ (rmatch_dotStar t1 ht1)
        (rmatch_reCat_cons (reLit "]-") _ [']', '-'] _ (by decide)
          (rmatch_reCat_cons reDigits4 _ yl _ (rmatch_digits4 yl hyl hyld)
            (rmatch_reCat_cons (reLit "-tt") _ ['-', 't', 't'] _ (by decide)
              (rmatch_reCat_cons reDigitsPlus _ ds _ (rmatch_digitsPlus ds hds hdsd)
                (rmatch_reCat_cons (reLit "-") _ ['-'] _ (by decide)
                  (rmatch_reCat_cons reDigitsPlus [] es []
                    (by simpa using rmatch_digitsPlus es hes hesd)
                    rmatch_reCat_nil)))))))
  simpa [org_pattern_3] using h

theorem rmatch_org4 (t1 yl es : List Char)
    (ht1 : ∀ c ∈ t1, c ≠ '\n')
    (hyl : yl.length = 4) (hyld : ∀ c ∈ yl, c.isDigit = true)
    (hes : es ≠ []) (hesd : ∀ c ∈ es, c.isDigit = true) :
    org_pattern_4.rmatch ('[' :: t1 ++ ']' :: '-' :: (yl ++ '-' :: es)) = true := by
  have h :=
    rmatch_reCat_cons (reLit "[") _ ['['] _ (by decide)
      (rmatch_reCat_cons reDotStar _ t1 _ (rmatch_dotStar t1 ht1)
        (rmatch_reCat_cons (reLit "]-") _ [']', '-'] _ (by decide)
          (rmatch_reCat_cons reDigits4 _ yl _ (rmatch_digits4 yl hyl hyld)
            (rmatch_reCat_cons (reLit "-") _ ['-'] _ (by decide)
              (rmatch_reCat_cons reDigitsPlus [] es []
                (by simpa using rmatch_digitsPlus es hes hesd)
                rmatch_reCat_nil)))))
  simpa [org_pattern_4] using h

theorem rmatch_org5 (t1 t2 ds es : List Char)
    (ht1 : ∀ c ∈ t1, c ≠ '\n') (ht2 : ∀ c ∈ t2, c ≠ '\n')
    (hds : ds ≠ []) (hdsd : ∀ c ∈ ds, c.isDigit = true)
    (hes : es ≠ []) (hesd : ∀ c ∈ es, c.isDigit = true) :
    org_pattern_5.rmatch
      ('[' :: t1 ++ ']' :: '-' :: '[' :: t2 ++ ']' :: '-' ::
        't' :: 't' :: (ds ++ '-' :: es)) = true := by
  have h :=
    rmatch_reCat_cons (reLit "[") _ ['['] _ (by decide)
      (rmatch_reCat_cons reDotStar _ t1 _ (rmatch_dotStar t1 ht1)
        (rmatch_reCat_cons (reLit "]-[") _ [']', '-', '['] _ (by decide)
          (rmatch_reCat_cons reDotStar _ t2 _ (rmatch_dotStar t2 ht2)
            (rmatch_reCat_cons (reLit "]-tt") _ [']', '-', 't', 't'] _ (by decide)
              (rmatch_reCat_cons reDigitsPlus _ ds _ (rmatch_digitsPlus ds hds hdsd)
                (rmatch_reCat_cons (reLit "-") _ ['-'] _ (by decide)
                  (rmatch_reCat_cons reDigitsPlus [] es []
                    (by simpa using rmatch_digitsPlus es hes hesd)
                    rmatch_reCat_nil)))))))
  simpa [org_pattern_5] using h

theorem movie_folder_name_shape_imdb (mi : MovieInfo) (ai : Option ParsedInfo)
    (imdbStr : String) (h1 : mi.imdb_id = some imdbStr) (h2 : imdbStr ≠ "")
    (h3 : pyStrip imdbStr ≠ "") (h4 : imdbStr ≠ "unknown")
    (h5 : mi.tmdb_id ≠ "") (h6 : pyStrip mi.tmdb_id ≠ "") :
    _generate_movie_folder_name mi ai =
      (if movie_second_title mi ai ≠ "" then
        "[" ++ pyOrEmpty mi.original_title ++ "]-[" ++ movie_second_title mi ai ++ "]"
      else "[" ++ pyOrEmpty mi.original_title ++ "]")
      ++ "-" ++ Nat.repr mi.year ++ "-" ++ imdbStr ++ "-" ++ mi.tmdb_id := by
  have hc : (optStrTruthy (some imdbStr) && !(pyStrip imdbStr == "")
      && pyNe (some imdbStr) (some "unknown")) = true := by
    simp [optStrTruthy, pyNe, h2, h3, h4]
  have hc2 : (!(mi.tmdb_id == "") && !(pyStrip mi.tmdb_id == "")) = true := by
    simp [h5, h6]
  simp only [_generate_movie_folder_name, h1, hc, hc2, eq_self_iff_true, if_true,
    pyOrEmpty]
  split <;> rfl

theorem movie_folder_name_shape_noimdb (mi : MovieInfo) (ai : Option ParsedInfo)
    (h1 : mi.imdb_id = none)
    (h5 : mi.tmdb_id ≠ "") (h6 : pyStrip mi.tmdb_id ≠ "") :
    _generate_movie_folder_name mi ai =
      (if movie_second_title mi ai ≠ "" then
        "[" ++ pyOrEmpty mi.original_title ++ "]-[" ++ movie_second_title mi ai ++ "]"
      else "[" ++ pyOrEmpty mi.original_title ++ "]")
      ++ "-" ++ Nat.repr mi.year ++ "-" ++ mi.tmdb_id := by
  have hc2 : (!(mi.tmdb_id == "") && !(pyStrip mi.tmdb_id == "")) = true := by
    simp [h5, h6]
  simp only [_generate_movie_folder_name, h1, optStrTruthy, Bool.false_and,
    Bool.and_self, if_false, hc2, eq_self_iff_true, if_true, pyOrEmpty]
  split <;> rfl

theorem tv_folder_name_shape_imdb (show_info : TVShowInfo) (ai : Option ParsedInfo)
    (imdbStr : String) (h1 : show_info.imdb_id = some imdbStr) (h2 : imdbStr ≠ "")
    (h3 : pyStrip imdbStr ≠ "") (h4 : imdbStr ≠ "unknown")
    (h5 : show_info.tmdb_id ≠ "") (h6 : pyStrip show_info.tmdb_id ≠ "") :
    _generate_tv_folder_name show_info ai =
      (if tv_second_title show_info ai ≠ "" then
        "[" ++ pyOrEmpty show_info.original_name ++ "]-[" ++ tv_second_title show_info ai ++ "]"
      else "[" ++ pyOrEmpty show_info.original_name ++ "]")
      ++ "-" ++ imdbStr ++ "-" ++ show_info.tmdb_id := by
  have hc : (optStrTruthy (some imdbStr) && !(pyStrip imdbStr == "")
      && pyNe (some imdbStr) (some "unknown")) = true := by
    simp [optStrTruthy, pyNe, h2, h3, h4]
  have hc2 : (!(show_info.tmdb_id == "") && !(pyStrip show_info.tmdb_id == "")) = true := by
    simp [h5, h6]
  simp only [_generate_tv_folder_name, h1, hc, hc2, eq_self_iff_true, if_true,
    pyOrEmpty, List.cons_append, List.nil_append, List.isEmpty_cons, Bool.not_false]
  have hint : ∀ a b : String, String.intercalate "-" [a, b] = a ++ "-" ++ b :=
    fun a b => rfl
  split <;> simp only [hint, String.append_assoc]

theorem recognizers_two_title_imdb (a b ys imdb tmdb : String) (ds : List Char)
    (ha : ∀ c ∈ a.data, c ≠ '\n') (hb : ∀ c ∈ b.data, c ≠ '\n')
    (hysl : ys.data.length = 4) (hysd : ∀ c ∈ ys.data, c.isDigit = true)
    (hid : imdb.data = 't' :: 't' :: ds) (hds : ds ≠ [])
    (hdsd : ∀ c ∈ ds, c.isDigit = true)
    (hes : tmdb.data ≠ []) (hesd : ∀ c ∈ tmdb.data, c.isDigit = true) :
    scanner_is_organized_folder
      ("[" ++ a ++ "]-[" ++ b ++ "]" ++ "-" ++ ys ++ "-" ++ imdb ++ "-" ++ tmdb) = true ∧
    organizer_is_organized_folder
      ("[" ++ a ++ "]-[" ++ b ++ "]" ++ "-" ++ ys ++ "-" ++ imdb ++ "-" ++ tmdb) = true := by
  have d1 : ("[" : String).data = ['['] := rfl
  have d2 : ("]-[" : String).data = [']', '-', '['] := rfl
  have d3 : ("]" : String).data = [']'] := rfl
  have d4 : ("-" : String).data = ['-'] := rfl
  have hdata : ("[" ++ a ++ "]-[" ++ b ++ "]" ++ "-" ++ ys ++ "-" ++ imdb ++ "-" ++ tmdb).data
      = '[' :: a.data ++ ']' :: '-' :: '[' :: b.data ++ ']' :: '-' ::
        (ys.data ++ '-' :: 't' :: 't' :: (ds ++ '-' :: tmdb.data)) := by
    simp [String.data_append, d1, d2, d3, d4, hid]
  constructor
  · apply scanner_folder_of_pattern sc_pattern_1 _ (by simp)
    rw [hdata]
    exact rmatch_sc1 a.data b.data ys.data ds tmdb.data ha hb hysl hysd hds hdsd hes hesd
  · apply organizer_folder_of_pattern org_pattern_1 _ (by simp)
    rw [hdata]
    exact rmatch_org1 a.data b.data ys.data ds tmdb.data ha hb hysl hysd hds hdsd hes hesd

theorem recognizers_one_title_imdb (a ys imdb tmdb : String) (ds : List Char)
    (ha : ∀ c ∈ a.data, c ≠ '\n')
    (hysl : ys.data.length = 4) (hysd : ∀ c ∈ ys.data, c.isDigit = true)
    (hid : imdb.data = 't' :: 't' :: ds) (hds : ds ≠ [])
    (hdsd : ∀ c ∈ ds, c.isDigit = true)
    (hes : tmdb.data ≠ []) (hesd : ∀ c ∈ tmdb.data, c.isDigit = true) :
    scanner_is_organized_folder
      ("[" ++ a ++ "]" ++ "-" ++ ys ++ "-" ++ imdb ++ "-" ++ tmdb) = true ∧
    organizer_is_organized_folder
      ("[" ++ a ++ "]" ++ "-" ++ ys ++ "-" ++ imdb ++ "-" ++ tmdb) = true := by
  have d1 : ("[" : String).data = ['['] := rfl
  have d3 : ("]" : String).data = [']'] := rfl
  have d4 : ("-" : String).data = ['-'] := rfl
  have hdata : ("[" ++ a ++ "]" ++ "-" ++ ys ++ "-" ++ imdb ++ "-" ++ tmdb).data
      = '[' :: a.data ++ ']' :: '-' ::
        (ys.data ++ '-' :: 't' :: 't' :: (ds ++ '-' :: tmdb.data)) := by
    simp [String.data_append, d1, d3, d4, hid]
  constructor
  · apply scanner_folder_of_pattern sc_pattern_2 _ (by simp)
    rw [hdata]
    exact rmatch_sc2 a.data ys.data ds tmdb.data ha hysl hysd hds hdsd hes hesd
  · apply organizer_folder_of_pattern org_pattern_3 _ (by simp)
    rw [hdata]
    exact rmatch_org3 a.data ys.data ds tmdb.data ha hysl hysd hds hdsd hes hesd

theorem organizer_recognizes_two_title_noimdb (a b ys tmdb : String)
    (ha : ∀ c ∈ a.data, c ≠ '\n') (hb : ∀ c ∈ b.data, c ≠ '\n')
    (hysl : ys.data.length = 4) (hysd : ∀ c ∈ ys.data, c.isDigit = true)
    (hes : tmdb.data ≠ []) (hesd : ∀ c ∈ tmdb.data, c.isDigit = true) :
    organizer_is_organized_folder
      ("[" ++ a ++ "]-[" ++ b ++ "]" ++ "-" ++ ys ++ "-" ++ tmdb) = true := by
  have d1 : ("[" : String).data = ['['] := rfl
  have d2 : ("]-[" : String).data = [']', '-', '['] := rfl
  have d3 : ("]" : String).data = [']'] := rfl
  have d4 : ("-" : String).data = ['-'] := rfl
  have hdata : ("[" ++ a ++ "]-[" ++ b ++ "]" ++ "-" ++ ys ++ "-" ++ tmdb).data
      = '[' :: a.data ++ ']' :: '-' :: '[' :: b.data ++ ']' :: '-' ::
        (ys.data ++ '-' :: tmdb.data) := by
    simp [String.data_append, d1, d2, d3, d4]
  apply organizer_folder_of_pattern org_pattern_2 _ (by simp)
  rw [hdata]
  exact rmatch_org2 a.data b.data ys.data tmdb.data ha hb hysl hysd hes hesd

theorem organizer_recognizes_one_title_noimdb (a ys tmdb : String)
    (ha : ∀ c ∈ a.data, c ≠ '\n')
    (hysl : ys.data.length = 4) (hysd : ∀ c ∈ ys.data, c.isDigit = true)
    (hes : tmdb.data ≠ []) (hesd : ∀ c ∈ tmdb.data, c.isDigit = true) :
    organizer_is_organized_folder
      ("[" ++ a ++ "]" ++ "-" ++ ys ++ "-" ++ tmdb) = true := by
  have d1 : ("[" : String).data = ['['] := rfl
  have d3 : ("]" : String).data = [']'] := rfl
  have d4 : ("-" : String).data = ['-'] := rfl
  have hdata : ("[" ++ a ++ "]" ++ "-" ++ ys ++ "-" ++ tmdb).data
      = '[' :: a.data ++ ']' :: '-' :: (ys.data ++ '-' :: tmdb.data) := by
    simp [String.data_append, d1, d3, d4]
  apply organizer_folder_of_pattern org_pattern_4 _ (by simp)
  rw [hdata]
  exact rmatch_org4 a.data ys.data tmdb.data ha hysl hysd hes hesd

theorem recognizers_tv_two_title_imdb (a b imdb tmdb : String) (ds : List Char)
    (ha : ∀ c ∈ a.data, c ≠ '\n') (hb : ∀ c ∈ b.data, c ≠ '\n')
    (hid : imdb.data = 't' :: 't' :: ds) (hds : ds ≠ [])
    (hdsd : ∀ c ∈ ds, c.isDigit = true)
    (hes : tmdb.data ≠ []) (hesd : ∀ c ∈ tmdb.data, c.isDigit = true) :
    scanner_is_organized_folder
      ("[" ++ a ++ "]-[" ++ b ++ "]" ++ "-" ++ imdb ++ "-" ++ tmdb) = true ∧
    organizer_is_organized_folder
      ("[" ++ a ++ "]-[" ++ b ++ "]" ++ "-" ++ imdb ++ "-" ++ tmdb) = true := by
  have d1 : ("[" : String).data = ['['] := rfl
  have d2 : ("]-[" : String).data = [']', '-', '['] := rfl
  have d3 : ("]" : String).data = [']'] := rfl
  have d4 : ("-" : String).data = ['-'] := rfl
  have hdata : ("[" ++ a ++ "]-[" ++ b ++ "]" ++ "-" ++ imdb ++ "-" ++ tmdb).data
      = '[' :: a.data ++ ']' :: '-' :: '[' :: b.data ++ ']' :: '-' ::
        't' :: 't' :: (ds ++ '-' :: tmdb.data) := by
    simp [String.data_append, d1, d2, d3, d4, hid]
  constructor
  · apply scanner_folder_of_pattern sc_pattern_3 _ (by simp)
    rw [hdata]
    exact rmatch_sc3 a.data b.data ds tmdb.data ha hb hds hdsd hes hesd
  · apply organizer_folder_of_pattern org_pattern_5 _ (by simp)
    rw [hdata]
    exact rmatch_org5 a.data b.data ds tmdb.data ha hb hds hdsd hes hesd

/-- C6 counterexample: a movie match without an imdb id generates
`[Foo]-[战争]-2020-999`, which the cleanup recognizer accepts but the
scanner's organized-folder recognizer does not — so, contrary to the
claim, not every Naming Engine output is recognized by both passes. -/
theorem C6_counterexample_noimdb_name_not_scanner_recognized :
    _generate_movie_folder_name
        { id := 999, title := some "战争", original_title := some "Foo", year := 2020,
          imdb_id := none, tmdb_id := "999" } none = "[Foo]-[战争]-2020-999" ∧
    organizer_is_organized_folder "[Foo]-[战争]-2020-999" = true ∧
    scanner_is_organized_folder "[Foo]-[战争]-2020-999" = false :=
  ⟨rfl, by decide, by decide⟩

/-- C6 (amended): every movie folder name generated with a `tt<digits>`
imdb id, a four-digit year rendering and a digit tmdb id (titles free of
newlines) is recognized by both the scanner's organized-folder recognizer
and the cleanup recognizer, as is every two-title TV folder name with an
imdb id; a movie name generated without an imdb id is still recognized by
the cleanup recognizer (only the scanner misses it); and the concrete
organized name `[Foo]-[Bar]-2020-tt1234567-999` is skipped by both
passes. -/
theorem C6_generated_names_recognized :
    (∀ (mi : MovieInfo) (ai : Option ParsedInfo) (imdbStr : String) (ds : List Char),
      mi.imdb_id = some imdbStr → imdbStr.data = 't' :: 't' :: ds →
      ds ≠ [] → (∀ c ∈ ds, c.isDigit = true) → pyStrip imdbStr ≠ "" →
      (Nat.repr mi.year).data.length = 4 →
      (∀ c ∈ (Nat.repr mi.year).data, c.isDigit = true) →
      mi.tmdb_id.data ≠ [] → (∀ c ∈ mi.tmdb_id.data, c.isDigit = true) →
      pyStrip mi.tmdb_id ≠ "" →
      (∀ c ∈ (pyOrEmpty mi.original_title).data, c ≠ '\n') →
      (∀ c ∈ (movie_second_title mi ai).data, c ≠ '\n') →
      scanner_is_organized_folder (_generate_movie_folder_name mi ai) = true ∧
      organizer_is_organized_folder (_generate_movie_folder_name mi ai) = true) ∧
    (∀ (mi : MovieInfo) (ai : Option ParsedInfo),
      mi.imdb_id = none →
      (Nat.repr mi.year).data.length = 4 →
      (∀ c ∈ (Nat.repr mi.year).data, c.isDigit = true) →
      mi.tmdb_id.data ≠ [] → (∀ c ∈ mi.tmdb_id.data, c.isDigit = true) →
      pyStrip mi.tmdb_id ≠ "" →
      (∀ c ∈ (pyOrEmpty mi.original_title).data, c ≠ '\n') →
      (∀ c ∈ (movie_second_title mi ai).data, c ≠ '\n') →
      organizer_is_organized_folder (_generate_movie_folder_name mi ai) = true) ∧
    (∀ (show_info : TVShowInfo) (ai : Option ParsedInfo) (imdbStr : String) (ds : List Char),
      show_info.imdb_id = some imdbStr → imdbStr.data = 't' :: 't' :: ds →
      ds ≠ [] → (∀ c ∈ ds, c.isDigit = true) → pyStrip imdbStr ≠ "" →
      show_info.tmdb_id.data ≠ [] → (∀ c ∈ show_info.tmdb_id.data, c.isDigit = true) →
      pyStrip show_info.tmdb_id ≠ "" →
      tv_second_title show_info ai ≠ "" →
      (∀ c ∈ (pyOrEmpty show_info.original_name).data, c ≠ '\n') →
      (∀ c ∈ (tv_second_title show_info ai).data, c ≠ '\n') →
      scanner_is_organized_folder (_generate_tv_folder_name show_info ai) = true ∧
      organizer_is_organized_folder (_generate_tv_folder_name show_info ai) = true) ∧
    scanner_is_organized_folder "[Foo]-[Bar]-2020-tt1234567-999" = true ∧
    organizer_is_organized_folder "[Foo]-[Bar]-2020-tt1234567-999" = true := by
  refine ⟨?_, ?_, ?_, by decide, by decide⟩
  · intro mi ai imdbStr ds h1 hid hds hdsd htrim hysl hysd hes hesd htm hO hS
    have h2 : imdbStr ≠ "" := by
      intro h
      rw [h] at hid
      have hd : ("" : String).data = [] := rfl
      rw [hd] at hid
      exact List.noConfusion hid
    have h4 : imdbStr ≠ "unknown" := by
      intro h
      rw [h] at hid
      have hd : ("unknown" : String).data = 'u' :: ['n', 'k', 'n', 'o', 'w', 'n'] := rfl
      rw [hd] at hid
      injection hid with hhead _
      exact absurd hhead (by decide)
    have h5 : mi.tmdb_id ≠ "" := fun h => hes (by rw [h])
    rw [movie_folder_name_shape_imdb mi ai imdbStr h1 h2 htrim h4 h5 htm]
    by_cases hsec : movie_second_title mi ai = ""
    · rw [if_neg (not_not_intro hsec)]
      exact recognizers_one_title_imdb (pyOrEmpty mi.original_title)
        (Nat.repr mi.year) imdbStr mi.tmdb_id ds hO hysl hysd hid hds hdsd hes hesd
    · rw [if_pos hsec]
      exact recognizers_two_title_imdb (pyOrEmpty mi.original_title)
        (movie_second_title mi ai) (Nat.repr mi.year) imdbStr mi.tmdb_id ds
        hO hS hysl hysd hid hds hdsd hes hesd
  · intro mi ai h1 hysl hysd hes hesd htm hO hS
    have h5 : mi.tmdb_id ≠ "" := fun h => hes (by rw [h])
    rw [movie_folder_name_shape_noimdb mi ai h1 h5 htm]
    by_cases hsec : movie_second_title mi ai = ""
    · rw [if_neg (not_not_intro hsec)]
      exact organizer_recognizes_one_title_noimdb (pyOrEmpty mi.original_title)
        (Nat.repr mi.year) mi.tmdb_id hO hysl hysd hes hesd
    · rw [if_pos hsec]
      exact organizer_recognizes_two_title_noimdb (pyOrEmpty mi.original_title)
        (movie_second_title mi ai) (Nat.repr mi.year) mi.tmdb_id hO hS hysl hysd hes hesd
  · intro show_info ai imdbStr ds h1 hid hds hdsd htrim hes hesd htm hsec hO hS
    have h2 : imdbStr ≠ "" := by
      intro h
      rw [h] at hid
      have hd : ("" : String).data = [] := rfl
      rw [hd] at hid
      exact List.noConfusion hid
    have h4 : imdbStr ≠ "unknown" := by
      intro h
      rw [h] at hid
      have hd : ("unknown" : String).data = 'u' :: ['n', 'k', 'n', 'o', 'w', 'n'] := rfl
      rw [hd] at hid
      injection hid with hhead _
      exact absurd hhead (by decide)
    have h5 : show_info.tmdb_id ≠ "" := fun h => hes (by rw [h])
    rw [tv_folder_name_shape_imdb show_info ai imdbStr h1 h2 htrim h4 h5 htm]
    rw [if_pos hsec]
    exact recognizers_tv_two_title_imdb (pyOrEmpty show_info.original_name)
      (tv_second_title show_info ai) imdbStr show_info.tmdb_id ds
      hO hS hid hds hdsd hes hesd

/-- Witness for C6: the amended theorem applied to a concrete matched
movie with imdb id `tt1234567`, tmdb id `999` and year 2020. -/
theorem C6_generated_names_recognized_witness :
    scanner_is_organized_folder
      (_generate_movie_folder_name
        { id := 7, title := some "战争", original_title := some "Foo", year := 2020,
          imdb_id := some "tt1234567", tmdb_id := "999" } none) = true ∧
    organizer_is_organized_folder
      (_generate_movie_folder_name
        { id := 7, title := some "战争", original_title := some "Foo", year := 2020,
          imdb_id := some "tt1234567", tmdb_id := "999" } none) = true :=
  C6_generated_names_recognized.1
    { id := 7, title := some "战争", original_title := some "Foo", year := 2020,
      imdb_id := some "tt1234567", tmdb_id := "999" } none
    "tt1234567" ['1', '2', '3', '4', '5', '6', '7'] rfl rfl (by decide) (by decide)
    (by decide) (by decide) (by decide) (by decide) (by decide) (by decide)
    (by decide) (by decide)

theorem try_search_attempts_all_empty {α : Type} (api : String → Option Nat → List α)
    (l : List SearchAttempt) (h : ∀ a ∈ l, api a.query a.year = []) :
    try_search_attempts api l = none := by
  induction l with
  | nil => rfl
  | cons a rest ih =>
    unfold try_search_attempts _search_movie_api
    rw [h a (by simp)]
    exact ih fun b hb => h b (by simp [hb])

theorem try_search_attempts_first_hit {α : Type} (api : String → Option Nat → List α)
    (pre : List SearchAttempt) (a : SearchAttempt) (post : List SearchAttempt)
    (hpre : ∀ b ∈ pre, api b.query b.year = []) (d : α) (ds : List α)
    (ha : api a.query a.year = d :: ds) :
    try_search_attempts api (pre ++ a :: post) = some d := by
  induction pre with
  | nil =>
    simp only [List.nil_append]
    unfold try_search_attempts _search_movie_api
    rw [ha]
    rfl
  | cons b rest ih =>
    simp only [List.cons_append]
    unfold try_search_attempts _search_movie_api
    rw [hpre b (by simp)]
    exact ih fun c hc => hpre c (by simp [hc])

/-- C1 (amended): `search_movie` builds the strategy list gated exactly as
documented except that the combined first attempt does not require the
localized title itself to be present (only `originalTitle` present, titles
distinct, year known); the attempts are issued in order, the loop stops at
the first attempt whose result set is non-empty and keeps only that
attempt's first result, and exhausting every attempt yields `none`, not an
error. -/
theorem C1_movie_search_strategy :
    (∀ (title : Option String) (year : Option Nat) (original_title : Option String),
      search_attempts title year original_title =
        amended_search_attempts title year original_title) ∧
    (∀ (α : Type) (api : String → Option Nat → List α) title year original_title,
      (∀ a ∈ search_attempts title year original_title, api a.query a.year = []) →
      search_movie_data api title year original_title = none) ∧
    (∀ (α : Type) (api : String → Option Nat → List α) title year original_title
        (pre : List SearchAttempt) (a : SearchAttempt) (post : List SearchAttempt),
      search_attempts title year original_title = pre ++ a :: post →
      (∀ b ∈ pre, api b.query b.year = []) →
      ∀ (d : α) (ds : List α), api a.query a.year = d :: ds →
      search_movie_data api title year original_title = some d) := by
  refine ⟨?_, ?_, ?_⟩
  · intro t y o
    unfold search_attempts amended_search_attempts
    cases hc1 : optStrTruthy o && pyNe t o && optNatTruthy y <;>
      cases hc2 : optStrTruthy o && optNatTruthy y <;>
        cases hc3 : optStrTruthy t && optNatTruthy y <;>
          cases hc4 : optStrTruthy o <;>
            cases hc5 : optStrTruthy t && pyNe t o <;>
              simp [List.filterMap, hc1, hc2, hc3, hc4, hc5]
  · intro α api t y o h
    exact try_search_attempts_all_empty api _ h
  · intro α api t y o pre a post hsplit hpre d ds ha
    unfold search_movie_data
    rw [hsplit]
    exact try_search_attempts_first_hit api pre a post hpre d ds ha

/-- Witness for C1: with localized title 战争, original title Warfare and
year 2025, a provider that is empty for the combined query and non-empty
for `Warfare`+2025 makes the loop settle on the second attempt's first
result. -/
theorem C1_movie_search_strategy_witness :
    search_movie_data
      (fun q (y : Option Nat) =>
        if q == "Warfare" && y == some 2025 then [7] else ([] : List Nat))
      (some "战争") (some 2025) (some "Warfare") = some 7 :=
  C1_movie_search_strategy.2.2 Nat
    (fun q (y : Option Nat) =>
      if q == "Warfare" && y == some 2025 then [7] else ([] : List Nat))
    (some "战争") (some 2025) (some "Warfare")
    [⟨"Warfare 战争", some 2025, "combined titles + year"⟩]
    ⟨"Warfare", some 2025, "original title + year"⟩
    [⟨"战争", some 2025, "title + year"⟩, ⟨"Warfare", none, "original title only"⟩,
     ⟨"战争", none, "title only"⟩]
    (by decide) (by decide) 7 [] (by decide)

/-- C1 counterexample: with the localized title absent (`None`) the code
still schedules the combined attempt first — its query even renders as
`"X None"` — whereas the claim's precondition (1) requires both titles to
be present, so the claimed attempt list differs from the code's. -/
theorem C1_counterexample_combined_without_title :
    search_attempts none (some 2020) (some "X") ≠
      claimed_search_attempts none (some 2020) (some "X") ∧
    (search_attempts none (some 2020) (some "X")).head? =
      some ⟨"X None", some 2020, "combined titles + year"⟩ :=
  ⟨by decide, by decide⟩

/-- C2: the year segment of the movie folder name is appended
unconditionally as `str(year)` (organizer.py 579), so the falsy year 0
yields the segment `-0` instead of being omitted, against the claim, the
spec, and the code's own comment on line 578; a truthy year behaves as
documented. -/
theorem C2_year_segment_always_appended :
    _generate_movie_folder_name
        { id := 1, title := some "Warfare", original_title := some "Warfare", year := 0,
          imdb_id := some "tt123", tmdb_id := "456" } none = "[Warfare]-0-tt123-456" ∧
    _generate_movie_folder_name
        { id := 1, title := some "战争", original_title := some "Warfare", year := 2025,
          imdb_id := some "tt31434639", tmdb_id := "1233413" } none
      = "[Warfare]-[战争]-2025-tt31434639-1233413" :=
  ⟨rfl, rfl⟩

theorem alt_loop_english_eq_find (alts : List AltTitle) :
    alt_loop_english alts =
      (alts.find? fun a => (a.iso_3166_1 == "US" || a.iso_3166_1 == "GB")
        && !_is_chinese_text a.title).map AltTitle.title := by
  induction alts with
  | nil => rfl
  | cons a rest ih =>
    by_cases h : ((a.iso_3166_1 == "US" || a.iso_3166_1 == "GB")
        && !_is_chinese_text a.title) = true
    · simp [alt_loop_english, List.find?_cons, h]
    · rw [Bool.not_eq_true] at h
      simp [alt_loop_english, List.find?_cons, h, ih]

theorem alt_loop_chinese_eq_find (alts : List AltTitle) :
    alt_loop_chinese alts =
      (alts.find? fun a =>
        (a.iso_3166_1 == "CN" || a.iso_3166_1 == "TW" || a.iso_3166_1 == "HK")
        && _is_chinese_text a.title).map AltTitle.title := by
  induction alts with
  | nil => rfl
  | cons a rest ih =>
    by_cases h : ((a.iso_3166_1 == "CN" || a.iso_3166_1 == "TW" || a.iso_3166_1 == "HK")
        && _is_chinese_text a.title) = true
    · simp [alt_loop_chinese, List.find?_cons, h]
    · rw [Bool.not_eq_true] at h
      simp [alt_loop_chinese, List.find?_cons, h, ih]

theorem trans_loop_chinese_eq_find (trans : List MovieTranslation) :
    trans_loop_chinese trans =
      (trans.find? fun t =>
        (t.iso_3166_1 == "CN" || t.iso_3166_1 == "TW" || t.iso_3166_1 == "HK")
        && (match t.title with
            | some tt => !(tt == "") && _is_chinese_text tt
            | none => false)).bind MovieTranslation.title := by
  induction trans with
  | nil => rfl
  | cons t rest ih =>
    by_cases hreg : (t.iso_3166_1 == "CN" || t.iso_3166_1 == "TW"
        || t.iso_3166_1 == "HK") = true
    · rcases htitle : t.title with _ | tt
      · have hp : ((t.iso_3166_1 == "CN" || t.iso_3166_1 == "TW" || t.iso_3166_1 == "HK")
            && (match t.title with
                | some tt => !(tt == "") && _is_chinese_text tt
                | none => false)) = false := by
          simp [htitle]
        rw [List.find?_cons, hp]
        simp only [trans_loop_chinese, hreg, htitle, eq_self_iff_true, if_true]
        exact ih
      · by_cases hq : (!(tt == "") && _is_chinese_text tt) = true
        · have hp : ((t.iso_3166_1 == "CN" || t.iso_3166_1 == "TW" || t.iso_3166_1 == "HK")
              && (match t.title with
                  | some tt => !(tt == "") && _is_chinese_text tt
                  | none => false)) = true := by
            simp only [htitle]
            simp [hreg, hq]
          rw [List.find?_cons, hp]
          simp [trans_loop_chinese, hreg, htitle, hq]
        · have hp : ((t.iso_3166_1 == "CN" || t.iso_3166_1 == "TW" || t.iso_3166_1 == "HK")
              && (match t.title with
                  | some tt => !(tt == "") && _is_chinese_text tt
                  | none => false)) = false := by
            simp only [htitle]
            simp [hq]
          rw [List.find?_cons, hp]
          simp only [trans_loop_chinese, hreg, htitle, hq, eq_self_iff_true, if_true,
            Bool.false_eq_true, if_false]
          exact ih
    · have hp : ((t.iso_3166_1 == "CN" || t.iso_3166_1 == "TW" || t.iso_3166_1 == "HK")
          && (match t.title with
              | some tt => !(tt == "") && _is_chinese_text tt
              | none => false)) = false := by
        rw [Bool.not_eq_true] at hreg
        simp [hreg]
      rw [List.find?_cons, hp]
      rw [Bool.not_eq_true] at hreg
      simp only [trans_loop_chinese, hreg, Bool.false_eq_true, if_false]
      exact ih

/-- C3 (amended): within each table the first qualifying entry wins, but
in the non-CJK branch the translations table is not a mere fallback — it
is scanned unconditionally after the alternative-titles loop, and its
first qualifying CJK translated title overrides the alternative already
chosen there.  In the CJK-original branch the first qualifying US/GB
alternative wins with nothing further considered. -/
theorem C3_first_qualifying_alternative :
    ∀ (orig cur : String) (alts : List AltTitle) (trans : List MovieTranslation),
      (_is_chinese_text orig = true →
        _enhance_movie_with_alternative_titles orig cur alts trans =
          ((alts.find? fun a => (a.iso_3166_1 == "US" || a.iso_3166_1 == "GB")
              && !_is_chinese_text a.title).map AltTitle.title).getD cur) ∧
      (_is_chinese_text orig = false →
        _enhance_movie_with_alternative_titles orig cur alts trans =
          ((trans.find? fun t =>
              (t.iso_3166_1 == "CN" || t.iso_3166_1 == "TW" || t.iso_3166_1 == "HK")
              && (match t.title with
                  | some tt => !(tt == "") && _is_chinese_text tt
                  | none => false)).bind MovieTranslation.title).getD
            (((alts.find? fun a =>
                (a.iso_3166_1 == "CN" || a.iso_3166_1 == "TW" || a.iso_3166_1 == "HK")
                && _is_chinese_text a.title).map AltTitle.title).getD cur)) := by
  intro orig cur alts trans
  constructor
  · intro h
    simp [_enhance_movie_with_alternative_titles, h, alt_loop_english_eq_find]
  · intro h
    simp [_enhance_movie_with_alternative_titles, h, alt_loop_chinese_eq_find,
      trans_loop_chinese_eq_find]

/-- Witness for C3: a CJK original title takes the first qualifying US/GB
alternative; a non-CJK original title with a qualifying CN translation has
the translation override the alternative-title pick. -/
theorem C3_first_qualifying_alternative_witness :
    _enhance_movie_with_alternative_titles "战争" "战争"
      [⟨"GB", "Warfare"⟩, ⟨"US", "War"⟩] [] = "Warfare" ∧
    _enhance_movie_with_alternative_titles "Warfare" "Warfare"
      [⟨"CN", "战争"⟩] [⟨"CN", some "战斗"⟩] = "战斗" := by
  constructor
  · exact ((C3_first_qualifying_alternative "战争" "战争"
      [⟨"GB", "Warfare"⟩, ⟨"US", "War"⟩] []).1 rfl).trans (by decide)
  · exact ((C3_first_qualifying_alternative "Warfare" "Warfare"
      [⟨"CN", "战争"⟩] [⟨"CN", some "战斗"⟩]).2 rfl).trans (by decide)

/-- C3 counterexample: with original title `Warfare` (non-CJK), the
alternative-titles loop first chooses `战争`, yet the final stored title is
the translated `战斗` — a candidate considered after one had already been
chosen, contradicting the claim. -/
theorem C3_counterexample_translation_overrides :
    alt_loop_chinese [⟨"CN", "战争"⟩] = some "战争" ∧
    _enhance_movie_with_alternative_titles "Warfare" "Warfare"
      [⟨"CN", "战争"⟩] [⟨"CN", some "战斗"⟩] = "战斗" ∧
    ("战斗" : String) ≠ "战争" :=
  ⟨rfl, rfl, by decide⟩

/-- C4 (amended): the second-title candidates are tried in a fixed order,
but the order is branch-dependent and is not provider-first: when the
provider's original title is CJK the provider's localized title is tried
before the parser's original title; when it is not CJK the parser's
localized title is tried before the provider's localized title (the same
holds for TV folder names). -/
theorem C4_second_title_priority :
    ∀ (mi : MovieInfo) (show_info : TVShowInfo) (ai : Option ParsedInfo),
      (_is_chinese_text (pyOrEmpty mi.original_title) = true →
        movie_second_title mi ai =
          (([(if pyOrEmpty mi.title ≠ "" && !_is_chinese_text (pyOrEmpty mi.title) then
                some (pyOrEmpty mi.title) else none),
             (match ai with
              | some p =>
                if optStrTruthy p.original_title
                    && !_is_chinese_text (pyOrEmpty p.original_title) then
                  some (pyOrEmpty p.original_title)
                else none
              | none => none)]).findSome? id).getD "") ∧
      (_is_chinese_text (pyOrEmpty mi.original_title) = false →
        movie_second_title mi ai =
          (([(match ai with
              | some p =>
                if optStrTruthy p.title && _is_chinese_text (pyOrEmpty p.title) then
                  some (pyOrEmpty p.title)
                else none
              | none => none),
             (if pyOrEmpty mi.title ≠ "" && pyOrEmpty mi.title ≠ pyOrEmpty mi.original_title
                  && _is_chinese_text (pyOrEmpty mi.title) then
                some (pyOrEmpty mi.title) else none)]).findSome? id).getD "") ∧
      (_is_chinese_text (pyOrEmpty show_info.original_name) = true →
        tv_second_title show_info ai =
          (([(if pyOrEmpty show_info.name ≠ ""
                  && !_is_chinese_text (pyOrEmpty show_info.name) then
                some (pyOrEmpty show_info.name) else none),
             (match ai with
              | some p =>
                if optStrTruthy p.original_title
                    && !_is_chinese_text (pyOrEmpty p.original_title) then
                  some (pyOrEmpty p.original_title)
                else none
              | none => none)]).findSome? id).getD "") ∧
      (_is_chinese_text (pyOrEmpty show_info.original_name) = false →
        tv_second_title show_info ai =
          (([(match ai with
              | some p =>
                if optStrTruthy p.title && _is_chinese_text (pyOrEmpty p.title) then
                  some (pyOrEmpty p.title)
                else none
              | none => none),
             (if pyOrEmpty show_info.name ≠ ""
                  && pyOrEmpty show_info.name ≠ pyOrEmpty show_info.original_name
                  && _is_chinese_text (pyOrEmpty show_info.name) then
                some (pyOrEmpty show_info.name) else none)]).findSome? id).getD "") := by
  intro mi show_info ai
  refine ⟨?_, ?_, ?_, ?_⟩
  · intro h
    rcases ai with _ | p <;>
      simp [movie_second_title, h, List.findSome?] <;>
      (try (split <;> simp)) <;>
      (try (split <;> simp))
  · intro h
    rcases ai with _ | p <;>
      simp [movie_second_title, h, List.findSome?] <;>
      (try (split <;> simp)) <;>
      (try (split <;> simp))
  · intro h
    rcases ai with _ | p <;>
      simp [tv_second_title, h, List.findSome?] <;>
      (try (split <;> simp)) <;>
      (try (split <;> simp))
  · intro h
    rcases ai with _ | p <;>
      simp [tv_second_title, h, List.findSome?] <;>
      (try (split <;> simp)) <;>
      (try (split <;> simp))

/-- Witness for C4: in the non-CJK branch the parser-supplied localized
title `战斗` is chosen even though the provider's localized title `战争`
also qualifies. -/
theorem C4_second_title_priority_witness :
    movie_second_title
        { id := 1, title := some "战争", original_title := some "Warfare", year := 2025,
          imdb_id := some "tt1", tmdb_id := "99" }
        (some { title := some "战斗", original_title := some "Warfare",
                year := some 2025, media_type := .movie }) = "战斗" := by
  exact ((C4_second_title_priority
    { id := 1, title := some "战争", original_title := some "Warfare", year := 2025,
      imdb_id := some "tt1", tmdb_id := "99" }
    { id := 1, name := none, original_name := none, first_air_date := "",
      imdb_id := none, tmdb_id := "" }
    (some { title := some "战斗", original_title := some "Warfare",
            year := some 2025, media_type := .movie })).2.1 rfl).trans (by decide)

/-- C4 counterexample: the provider's titles are bilingual (original
`Warfare` non-CJK, localized `战争` CJK), yet the parser's localized title
`战斗` is stored as the second title — the provider's localized title was
not considered first, contradicting the claim. -/
theorem C4_counterexample_parser_title_first :
    movie_second_title
        { id := 1, title := some "战争", original_title := some "Warfare", year := 2025,
          imdb_id := some "tt1", tmdb_id := "99" }
        (some { title := some "战斗", original_title := some "Warfare",
                year := some 2025, media_type := .movie }) = "战斗" ∧
    _is_chinese_text "Warfare" = false ∧
    _is_chinese_text "战争" = true ∧
    ("战斗" : String) ≠ "战争" :=
  ⟨rfl, rfl, rfl, by decide⟩

theorem extract_first_match_append (text : String) (pre : List ReGroupPat)
    (p : ReGroupPat) (post : List ReGroupPat) (m : String)
    (hpre : ∀ q ∈ pre, reSearchCI q text.data = none)
    (hp : reSearchCI p text.data = some m) :
    _extract_first_match text (pre ++ p :: post) = some m := by
  induction pre with
  | nil => simp [_extract_first_match, List.findSome?_cons, hp]
  | cons q rest ih =>
    have hq := hpre q (by simp)
    simp only [_extract_first_match, List.cons_append, List.findSome?_cons, hq]
    exact ih fun r hr => hpre r (by simp [hr])

theorem extract_first_match_all_none (text : String) (pats : List ReGroupPat)
    (h : ∀ q ∈ pats, reSearchCI q text.data = none) :
    _extract_first_match text pats = none := by
  induction pats with
  | nil => rfl
  | cons q rest ih =>
    have hq := h q (by simp)
    simp only [_extract_first_match, List.findSome?_cons, hq]
    exact ih fun r hr => h r (by simp [hr])

/-- C5 (amended): the regex families are tried in listed order with the
first match kept and the documented defaults substituted, and the
documented example extracts exactly `1080p-BluRay-x264-8bit-AAC`; the
resolution is forced to `2160p` by a check that is case-insensitive for
"4K" but case-sensitive for "2160p" (`'4K' in filename.upper() or '2160p'
in filename`). -/
theorem C5_video_info_extraction :
    _extract_video_info_from_filename "Kill.Command.2016.1080p.BluRay.x264-GROUP.mkv"
        = "1080p-BluRay-x264-8bit-AAC" ∧
    (∀ filename : String,
      (strContains (pyUpper filename) "4K" || strContains filename "2160p") = true →
      _extract_video_info_from_filename filename =
        "2160p" ++ "-" ++ (_extract_first_match filename format_patterns).getD "WEB-DL"
          ++ "-" ++ (_extract_first_match filename codec_patterns).getD "x264"
          ++ "-" ++ (if ["10bit", "10-bit", "x265", "HEVC"].any
                (fun x => strContains filename x) then "10bit" else "8bit")
          ++ "-" ++ (_extract_first_match filename audio_patterns).getD "AAC") ∧
    (∀ (text : String) (pre : List ReGroupPat) (p : ReGroupPat)
        (post : List ReGroupPat) (m : String),
      (∀ q ∈ pre, reSearchCI q text.data = none) → reSearchCI p text.data = some m →
      _extract_first_match text (pre ++ p :: post) = some m) ∧
    (∀ (text : String) (pats : List ReGroupPat),
      (∀ q ∈ pats, reSearchCI q text.data = none) →
      _extract_first_match text pats = none) := by
  refine ⟨rfl, ?_, extract_first_match_append, extract_first_match_all_none⟩
  intro filename h
  simp [_extract_video_info_from_filename, h]

/-- Witness for C5: a filename containing `4K` has its resolution forced
to `2160p`. -/
theorem C5_video_info_extraction_witness :
    _extract_video_info_from_filename "Movie.4K.mkv"
      = "2160p-WEB-DL-x264-8bit-AAC" :=
  (C5_video_info_extraction.2.1 "Movie.4K.mkv" (by decide)).trans (by decide)

/-- C5 counterexample: `2160p` does occur case-insensitively in
`Movie.2160P.mkv`, but the code's membership test for it is
case-sensitive, so the resolution is not forced to `2160p` — the claimed
case-insensitive forcing is false. -/
theorem C5_counterexample_2160P_case_sensitive :
    strContainsCI "Movie.2160P.mkv" "2160p" = true ∧
    _extract_video_info_from_filename "Movie.2160P.mkv"
      = "2160P-WEB-DL-x264-8bit-AAC" ∧
    ("2160P-WEB-DL-x264-8bit-AAC" : String) ≠ "2160p-WEB-DL-x264-8bit-AAC" :=
  ⟨rfl, rfl, by decide⟩

theorem resolve_conflict_loop_finds (fs : List String) (base ext : String) :
    ∀ (fuel c k : Nat), c ≤ k → k < c + fuel + 1 →
      (∀ j, c ≤ j → j < k → conflict_candidate base ext j ∈ fs) →
      conflict_candidate base ext k ∉ fs →
      resolve_conflict_loop fs base ext fuel c = conflict_candidate base ext k := by
  intro fuel
  induction fuel with
  | zero =>
    intro c k hck hkb hall hfree
    have hkc : k = c := by omega
    subst hkc
    rfl
  | succ fuel ih =>
    intro c k hck hkb hall hfree
    by_cases hc : c = k
    · subst hc
      simp only [resolve_conflict_loop]
      rw [if_neg hfree]
    · have hlt : c < k := lt_of_le_of_ne hck hc
      have hmem : conflict_candidate base ext c ∈ fs := hall c le_rfl hlt
      simp only [resolve_conflict_loop]
      rw [if_pos hmem]
      exact ih (c + 1) k hlt (by omega) (fun j hj1 hj2 => hall j (by omega) hj2) hfree

/-- C7: `_execute_move` never overwrites an existing file at the requested
destination: a free destination is used as-is; an occupied one is replaced
by the first free `base-NN ext` candidate, counting from `-01`, which is
itself not an existing path and differs from the requested destination;
the move then lands the source at that resolved path.  In particular two
sources aimed at the same destination end as two files, the second
suffixed `-01`. -/
theorem C7_destination_collision_resolution :
    (∀ (fs : List String) (dest : String), dest ∉ fs →
      resolve_destination fs dest = dest) ∧
    (∀ (fs : List String) (dest : String) (k : Nat), dest ∈ fs → 1 ≤ k →
      k ≤ fs.length + 1 →
      (∀ j, 1 ≤ j → j < k →
        conflict_candidate (os_path_splitext dest).1 (os_path_splitext dest).2 j ∈ fs) →
      conflict_candidate (os_path_splitext dest).1 (os_path_splitext dest).2 k ∉ fs →
      resolve_destination fs dest
          = conflict_candidate (os_path_splitext dest).1 (os_path_splitext dest).2 k ∧
        resolve_destination fs dest ∉ fs ∧
        resolve_destination fs dest ≠ dest) ∧
    (∀ (st : OrgState) (op : FileOperation),
      (_execute_move st op).fs
        = st.fs.erase op.source ++ [resolve_destination st.fs op.destination]) ∧
    (_execute_move
        (_execute_move ⟨[], ["/src/a.mkv", "/src/b.mkv"]⟩
          ⟨"move", "/src/a.mkv", "/dest/m.mkv", "first move"⟩)
        ⟨"move", "/src/b.mkv", "/dest/m.mkv", "second move"⟩).fs
      = ["/dest/m.mkv", "/dest/m-01.mkv"] := by
  refine ⟨?_, ?_, fun st op => rfl, rfl⟩
  · intro fs dest h
    simp only [resolve_destination]
    rw [if_neg h]
  · intro fs dest k hdest hk1 hkb hall hfree
    have hres : resolve_destination fs dest
        = conflict_candidate (os_path_splitext dest).1 (os_path_splitext dest).2 k := by
      simp only [resolve_destination]
      rw [if_pos hdest]
      exact resolve_conflict_loop_finds fs (os_path_splitext dest).1
        (os_path_splitext dest).2 (fs.length + 1) 1 k hk1 (by omega) hall hfree
    refine ⟨hres, ?_, ?_⟩
    · rw [hres]; exact hfree
    · rw [hres]
      intro heq
      exact hfree (by rw [heq]; exact hdest)

/-- Witness for C7: a free destination is kept; an occupied one gets the
`-01` suffix before the extension. -/
theorem C7_destination_collision_resolution_witness :
    resolve_destination [] "/d/m.mkv" = "/d/m.mkv" ∧
    resolve_destination ["/d/m.mkv"] "/d/m.mkv" = "/d/m-01.mkv" := by
  constructor
  · exact C7_destination_collision_resolution.1 [] "/d/m.mkv" (by decide)
  · exact ((C7_destination_collision_resolution.2.1 ["/d/m.mkv"] "/d/m.mkv" 1
      (by decide) (by decide) (by decide)
      (fun j hj1 hj2 => absurd (Nat.lt_of_le_of_lt hj1 hj2) (Nat.lt_irrefl 1))
      (by decide)).1).trans (by decide)

theorem cleanup_unwanted_dry (cf : Bool) (sd : String) :
    ∀ (items : List String) (st : OrgState),
      cleanup_unwanted true cf st sd items =
        { st with
            ops := st.ops ++
              (items.filter fun i => !cleanup_skips cf i).map (unwanted_operation sd) } := by
  intro items
  induction items with
  | nil => intro st; simp [cleanup_unwanted]
  | cons i rest ih =>
    intro st
    by_cases hskip : cleanup_skips cf i = true
    · simp only [cleanup_unwanted, List.foldl_cons, hskip, if_true, List.filter_cons,
        Bool.not_true, Bool.false_eq_true]
      have := ih st
      simp only [cleanup_unwanted] at this
      simpa using this
    · rw [Bool.not_eq_true] at hskip
      simp only [cleanup_unwanted, List.foldl_cons, hskip, Bool.false_eq_true, if_false,
        if_true, List.filter_cons, Bool.not_false]
      have := ih { st with ops := st.ops ++ [unwanted_operation sd i] }
      simp only [cleanup_unwanted, if_true] at this
      rw [this]
      simp

theorem batch_rename_dry (files : List String) (season_dir : String)
    (sh : TVShowInfo) (n : Nat) :
    ∀ st : OrgState, _batch_rename_episodes true st files season_dir sh n = st := by
  induction files with
  | nil => intro st; rfl
  | cons f rest ih =>
    intro st
    simp only [_batch_rename_episodes, List.foldl_cons, if_true]
    have := ih st
    simp only [_batch_rename_episodes] at this
    exact this

/-- C8 (amended): in dry-run mode the organizer leaves the filesystem
untouched on every path, and appends the planned operations to the ordered
log for movie moves, their related-file moves, unmatched moves, and
unwanted-cleanup moves — but the TV episode renames of
`_batch_rename_episodes` are only logged to the logger: their operations
are not appended. -/
theorem C8_dry_run_behavior :
    (∀ (cf : Bool) (st : OrgState) (mi : MovieInfo) (sp rd : String)
        (ai : Option ParsedInfo) (rel : List String),
      (organize_movie true cf st mi sp rd ai rel).ops
          = st.ops ++ movie_main_operation cf mi sp rd ai ::
              rel.map (related_file_operation (movie_dest_dir cf mi rd ai)) ∧
      (organize_movie true cf st mi sp rd ai rel).fs = st.fs) ∧
    (∀ (st : OrgState) (fp : String),
      (move_to_unmatched true st fp).ops = st.ops ++ [unmatched_operation fp] ∧
      (move_to_unmatched true st fp).fs = st.fs) ∧
    (∀ (cf : Bool) (st : OrgState) (sd : String) (items : List String),
      (cleanup_unwanted true cf st sd items).ops
          = st.ops ++ (items.filter fun i => !cleanup_skips cf i).map
              (unwanted_operation sd) ∧
      (cleanup_unwanted true cf st sd items).fs = st.fs) ∧
    (∀ (st : OrgState) (files : List String) (season_dir : String)
        (sh : TVShowInfo) (n : Nat),
      (_batch_rename_episodes true st files season_dir sh n).ops = st.ops ∧
      (_batch_rename_episodes true st files season_dir sh n).fs = st.fs) := by
  refine ⟨?_, ?_, ?_, ?_⟩
  · intro cf st mi sp rd ai rel
    exact ⟨rfl, rfl⟩
  · intro st fp
    exact ⟨rfl, rfl⟩
  · intro cf st sd items
    rw [cleanup_unwanted_dry cf sd items st]
    exact ⟨rfl, rfl⟩
  · intro st files season_dir sh n
    rw [batch_rename_dry files season_dir sh n st]
    exact ⟨rfl, rfl⟩

/-- C8 counterexample: a dry-run episode batch rename constructs a real
move operation but appends nothing to the operations log, so the claim
that every planned move — TV episode renames included — is appended is
false. -/
theorem C8_counterexample_episode_ops_not_logged :
    (_batch_rename_episodes true ⟨[], []⟩ ["/scan/Show/S01E01.mkv"]
        "/out/[Show]-tt1-99/S01-2011"
        { id := 1, name := some "Show", original_name := some "Show",
          first_air_date := "2011-04-17", imdb_id := some "tt1", tmdb_id := "99" } 1).ops
      = [] ∧
    episode_operation
        { id := 1, name := some "Show", original_name := some "Show",
          first_air_date := "2011-04-17", imdb_id := some "tt1", tmdb_id := "99" } 1
        "/out/[Show]-tt1-99/S01-2011" "/scan/Show/S01E01.mkv"
      = ⟨"move", "/scan/Show/S01E01.mkv",
          "/out/[Show]-tt1-99/S01-2011/[Show]-S01E01-1080p-WEB-DL-x264-8bit-AAC.mkv",
          "Organize episode: S01E01"⟩ ∧
    ([] : List FileOperation) ≠
      [episode_operation
        { id := 1, name := some "Show", original_name := some "Show",
          first_air_date := "2011-04-17", imdb_id := some "tt1", tmdb_id := "99" } 1
        "/out/[Show]-tt1-99/S01-2011" "/scan/Show/S01E01.mkv"] :=
  ⟨rfl, rfl, by simp⟩

/-- C9: `get_season_info` never returns a populated `SeasonInfo`.  The
`SeasonInfo(...)` call on matcher.py 119-125 omits the dataclass's
required `id` and `name` fields, so even a successful provider response
raises `TypeError` inside the `try` and the `except` returns `None`; the
caller consequently always falls back to the show's first-air-date year
(or `"Unknown"` when that is empty). -/
theorem C9_get_season_info_always_none :
    (∀ resp : Option SeasonApiData, get_season_info resp = none) ∧
    get_season_info (some ⟨some 1, some "2011-04-17", some "overview", none, []⟩) = none ∧
    (∀ (show_info : TVShowInfo) (resp : Option SeasonApiData),
      tv_season_year show_info (get_season_info resp)
        = (if show_info.first_air_date ≠ "" then
            (show_info.first_air_date.data.take 4).asString
          else "Unknown")) ∧
    tv_season_year
      { id := 1, name := some "n", original_name := some "Show",
        first_air_date := "2011-04-17", imdb_id := none, tmdb_id := "99" } none
      = "2011" := by
  have hnone : ∀ resp : Option SeasonApiData, get_season_info resp = none := by
    intro resp
    rcases resp with _ | data
    · rfl
    · rfl
  refine ⟨hnone, rfl, ?_, rfl⟩
  intro show_info resp
  rw [hnone resp]
  rfl

/-- C10: every call to `parse_with_ai` — successful parse, unparsable AI
response, failed AI call, or exception — appends exactly one record to
`scan_results` and increments exactly one of `successful_parses` or
`failed_parses`; the invariant `successful + failed = |scan_results|` is
preserved, and `save_scan_session` sets `total_files` to `|scan_results|`. -/
theorem C10_scan_session_accounting :
    ∀ (sess : ScanSession) (name : String) (mt : MediaType)
      (fc : Option String) (pe : Option String) (resp : Option String)
      (pr : String → Option ParsedInfo),
      ((parse_with_ai sess name mt fc pe resp pr).1.scan_results.length
          = sess.scan_results.length + 1) ∧
      (((parse_with_ai sess name mt fc pe resp pr).1.summary.successful_parses
            = sess.summary.successful_parses + 1 ∧
        (parse_with_ai sess name mt fc pe resp pr).1.summary.failed_parses
            = sess.summary.failed_parses) ∨
       ((parse_with_ai sess name mt fc pe resp pr).1.summary.successful_parses
            = sess.summary.successful_parses ∧
        (parse_with_ai sess name mt fc pe resp pr).1.summary.failed_parses
            = sess.summary.failed_parses + 1)) ∧
      (sess.summary.successful_parses + sess.summary.failed_parses
          = sess.scan_results.length →
        (parse_with_ai sess name mt fc pe resp pr).1.summary.successful_parses
            + (parse_with_ai sess name mt fc pe resp pr).1.summary.failed_parses
          = (parse_with_ai sess name mt fc pe resp pr).1.scan_results.length) ∧
      ((save_scan_session (parse_with_ai sess name mt fc pe resp pr).1).summary.total_files
          = (parse_with_ai sess name mt fc pe resp pr).1.scan_results.length) := by
  intro sess name mt fc pe resp pr
  rcases pe with _ | e
  · rcases resp with _ | r
    · refine ⟨by simp [parse_with_ai], Or.inr ⟨by simp [parse_with_ai], by simp [parse_with_ai]⟩,
        ?_, by simp [parse_with_ai, save_scan_session]⟩
      intro hinv
      simp [parse_with_ai]
      omega
    · rcases hpr : pr r with _ | p
      · refine ⟨by simp [parse_with_ai, hpr],
          Or.inr ⟨by simp [parse_with_ai, hpr], by simp [parse_with_ai, hpr]⟩,
          ?_, by simp [parse_with_ai, save_scan_session, hpr]⟩
        intro hinv
        simp [parse_with_ai, hpr]
        omega
      · refine ⟨by simp [parse_with_ai, hpr],
          Or.inl ⟨by simp [parse_with_ai, hpr], by simp [parse_with_ai, hpr]⟩,
          ?_, by simp [parse_with_ai, save_scan_session, hpr]⟩
        intro hinv
        simp [parse_with_ai, hpr]
        omega
  · refine ⟨by simp [parse_with_ai], Or.inr ⟨by simp [parse_with_ai], by simp [parse_with_ai]⟩,
      ?_, by simp [parse_with_ai, save_scan_session]⟩
    intro hinv
    simp [parse_with_ai]
    omega

/-- Witness for C10: one successful-response, unparsable-output call on an
empty session preserves the accounting invariant. -/
theorem C10_scan_session_accounting_witness :
    (parse_with_ai ⟨[], ⟨0, 0, 0, 0, 0⟩⟩ "f.mkv" MediaType.movie none none (some "ok")
        (fun _ => none)).1.summary.successful_parses
      + (parse_with_ai ⟨[], ⟨0, 0, 0, 0, 0⟩⟩ "f.mkv" MediaType.movie none none (some "ok")
        (fun _ => none)).1.summary.failed_parses
      = (parse_with_ai ⟨[], ⟨0, 0, 0, 0, 0⟩⟩ "f.mkv" MediaType.movie none none (some "ok")
        (fun _ => none)).1.scan_results.length :=
  (C10_scan_session_accounting ⟨[], ⟨0, 0, 0, 0, 0⟩⟩ "f.mkv" MediaType.movie none none
    (some "ok") (fun _ => none)).2.2.1 rfl

end MediaOrganizer
